import Mathlib

/-!
Verification of the breather-selection decision engine
(`src/core/calculations.py`, `src/core/rule_engine.py`,
`src/core/data_processor.py`, `src/core/circulating_processor.py`)
against its natural-language specification.

Modelling conventions:
* Python floats are modelled as exact rationals (`ℚ`); the claims under
  study are structural (orderings, priorities, memberships, statuses) and
  do not depend on binary floating-point rounding.
* A pandas cell that may be `NaN` (or an unparseable string coerced to
  `NaN` via `pd.to_numeric(errors := coerce)`) is modelled as `Option ℚ`;
  any `NaN`-involving comparison is `false`, which matches pandas.
* The catalog is a list of `Breather` records over the fixed input-contract
  schema `catalogColumns`; the fuzzy column lookup `_find_column` is
  embedded in full (direct mappings plus cleaned-substring scan) over that
  schema.  The per-run memo cache of `_find_column` is observationally
  pure for a fixed catalog and is therefore not threaded through.
* Python f-string trace lines are modelled structurally by the `TraceStep`
  inductive, one constructor per source trace site, carrying the
  interpolated data.  Installation-note strings keep the source text where
  it is constant and are abbreviated (without the interpolated numbers)
  where the source interpolates values; no claim depends on those texts.
* Keyword-argument passing is modelled explicitly: a call site carries the
  list of keyword names it passes, the callee carries its parameter list
  (from the `def` line of the source), and a mismatch is a `TypeError`
  value, exactly as in CPython.
-/

/-- Python `sub in hay` on character lists. -/
def charsContain (sub : List Char) : List Char → Bool
  | [] => sub.isEmpty
  | c :: cs => sub.isPrefixOf (c :: cs) || charsContain sub cs

/-- Python `needle in hay` for strings. -/
def strContains (hay needle : String) : Bool :=
  charsContain needle.data hay.data

/-- Python `str.lower()` (ASCII, which covers every string compared here). -/
def lowerStr (s : String) : String :=
  String.mk (s.data.map Char.toLower)

/-- Python `str.strip()` over the character list. -/
def stripChars (l : List Char) : List Char :=
  ((l.dropWhile Char.isWhitespace).reverse.dropWhile Char.isWhitespace).reverse

/-- Python `str.strip()`. -/
def stripStr (s : String) : String :=
  String.mk (stripChars s.data)

/-- Python `.str.contains(needle, case=False)` used for the `Type` column. -/
def containsCI (hay needle : String) : Bool :=
  strContains (lowerStr hay) (lowerStr needle)

/-- `col.lower().replace(chr 10, blank).replace(chr 13, blank).strip()` from
`_find_column`. -/
def cleanCol (s : String) : String :=
  String.mk (stripChars ((lowerStr s).data.map
    (fun c => if c = Char.ofNat 10 || c = Char.ofNat 13 then Char.ofNat 32 else c)))

/-- One catalog row (`BreatherCandidate` of the spec), over the input-contract
columns.  `Option ℚ` fields are numeric columns after `pd.to_numeric`
coercion (`none` = `NaN`); `Bool` fields are the boolean capability flags. -/
structure Breather where
  brand : String
  model : String
  btype : String
  maxAirFlow : Option ℚ
  maxFluidFlow : Option ℚ
  heightIn : Option ℚ
  diameterIn : Option ℚ
  adsorption : Option ℚ
  extendedService : Bool
  mobileApps : Bool
  highVibration : Bool
  oilMistControl : Bool
  rh25to75 : Bool
  rhOver75 : Bool
  wccLow : Bool
  wccMedium : Bool
  wccHigh : Bool
  sumpVolMaxSplash : Option ℚ
  sumpVolMaxCirc : Option ℚ
  deriving DecidableEq, Repr

/-- The catalog columns of the input contract (section 6 of the spec); the
physical header texts referenced by `_find_column`. -/
def catalogColumns : List String :=
  ["Brand", "Model", "Type", "Max Air Flow (cfm)", "Max Fluid Flow (gpm)",
   "Height (in)", "Diameter (in)", "Adsorption Capacity (mL)",
   "Extended Service", "Mobile applications", "Integrated oil mist control",
   "High vibration", "Rh 25 to 75%", "Rh >75%",
   "Water contact conditions\nHigh", "Water contact conditions\nMedium",
   "Water contact conditions\nLow",
   "Gearbox, pump, storage Sump Volume MAX gal",
   "Circulating/Hyd sump volume max gal."]

/-- Value of a boolean catalog column of a row, by physical column name. -/
def colBool (b : Breather) (col : String) : Bool :=
  if col = "Extended Service" then b.extendedService
  else if col = "Mobile applications" then b.mobileApps
  else if col = "Integrated oil mist control" then b.oilMistControl
  else if col = "High vibration" then b.highVibration
  else if col = "Rh 25 to 75%" then b.rh25to75
  else if col = "Rh >75%" then b.rhOver75
  else if col = "Water contact conditions\nLow" then b.wccLow
  else if col = "Water contact conditions\nMedium" then b.wccMedium
  else if col = "Water contact conditions\nHigh" then b.wccHigh
  else false

/-- Value of a numeric catalog column of a row, by physical column name. -/
def colNum (b : Breather) (col : String) : Option ℚ :=
  if col = "Max Air Flow (cfm)" then b.maxAirFlow
  else if col = "Max Fluid Flow (gpm)" then b.maxFluidFlow
  else if col = "Height (in)" then b.heightIn
  else if col = "Diameter (in)" then b.diameterIn
  else if col = "Adsorption Capacity (mL)" then b.adsorption
  else if col = "Gearbox, pump, storage Sump Volume MAX gal" then b.sumpVolMaxSplash
  else if col = "Circulating/Hyd sump volume max gal." then b.sumpVolMaxCirc
  else none

/-- `direct_mappings` of `RuleEngine._find_column`. -/
def directMappings : List (String × List String) :=
  [("integrated oil mist control", ["Integrated oil mist control"]),
   ("high vibration", ["High vibration"]),
   ("extended service", ["Extended Service"]),
   ("mobile applications", ["Mobile applications"]),
   ("rh 25 to 75", ["Rh 25 to 75%"]),
   ("rh >75%", ["Rh >75%"]),
   ("water contact conditions high",
     ["Water contact conditions\r\nHigh", "Water contact conditions High",
      "Water contact conditions\nHigh"]),
   ("water contact conditions medium",
     ["Water contact conditions\r\nMedium", "Water contact conditions Medium",
      "Water contact conditions\nMedium"]),
   ("water contact conditions low",
     ["Water contact conditions\r\nLow", "Water contact conditions Low",
      "Water contact conditions\nLow"]),
   ("sump volume max gal", ["Gearbox, pump, storage Sump Volume MAX gal"]),
   ("circulating/hyd sump volume max gal.", ["Circulating/Hyd sump volume max gal."])]

/-- `RuleEngine._find_column` over a fixed column list (memo cache elided:
for a fixed catalog it is observationally pure). -/
def findColumn (cols : List String) (keyword : String) : Option String :=
  if keyword = "" then none
  else
    let keywordClean := stripStr (lowerStr keyword)
    match (directMappings.find? (fun p => p.1 = keywordClean)) with
    | some p =>
        match p.2.find? (fun c => cols.contains c) with
        | some c => some c
        | none => cols.find? (fun c => charsContain keywordClean.data (cleanCol c).data)
    | none => cols.find? (fun c => charsContain keywordClean.data (cleanCol c).data)

/-- Process-wide configuration / per-asset effective configuration
(`GlobalConfiguration` of the spec); `none` = key absent or `None`. -/
structure Config where
  criticality : Option String
  safetyFactor : Option ℚ
  minAmbTemp : Option ℚ
  maxAmbTemp : Option ℚ
  mobileApplication : Option Bool
  highParticleRemoval : Option Bool
  esiManual : Option String
  enableManualGpm : Option Bool
  manualGpmOverride : Option ℚ
  brandFilter : Option String
  deriving DecidableEq, Repr

/-- One asset row (`AssetDescriptor`).  Free-text fields are `String`
(missing text cells are the empty string after Python `str()` defaults);
numeric cells are `Option ℚ`. -/
structure AssetRow where
  dHeight : Option ℚ
  dWidth : Option ℚ
  dLength : Option ℚ
  dOilLevel : Option ℚ
  dOilCapacity : Option ℚ
  dOperatingTemp : String
  dContaminantLikelihood : String
  dWaterContact : String
  dAvgHumidity : Option ℚ
  dOilMistEvidence : String
  dVibration : String
  dClearance : String
  machine : String
  maintPoint : String
  dFlowRate : Option ℚ
  dFlowUnit : String
  deriving DecidableEq, Repr

/-! ## ThermalCalculator constants (`calculations.py`) -/

def litersToGallons : ℚ := 264172 / 1000000
def inchesCubedToGallons : ℚ := 4329 / 1000000
def oilExpansionCoefficient : ℚ := 3611 / 10000000
def airExpansionCoefficient : ℚ := 1894 / 1000000
def cfmSafetyFactor : ℚ := 14 / 10
def gallonsToCubicFeet : ℚ := 748 / 100
def defaultOilPercentage : ℚ := 3 / 10

/-- `ThermalCalculator._convert_to_inches`: mm assumed when the value
exceeds 50; `NaN` becomes 0. -/
def convertToInches : Option ℚ → ℚ
  | none => 0
  | some x => if x > 50 then x / (254 / 10) else x

/-- `ThermalCalculator._has_full_dimensional_data`: all four dimension
cells present and positive. -/
def hasFullDimensionalData (row : AssetRow) : Bool :=
  row.dHeight.any (fun v => v > 0) && row.dWidth.any (fun v => v > 0) &&
  row.dLength.any (fun v => v > 0) && row.dOilLevel.any (fun v => v > 0)

/-- `ThermalCalculator._has_oil_capacity_debug`: capacity present, numeric
and positive (string cells are modelled as already-parsed numbers). -/
def hasOilCapacity (row : AssetRow) : Bool :=
  row.dOilCapacity.any (fun v => v > 0)

/-- Result of `ThermalCalculator.calculate_volumes`. -/
structure Volumes where
  vSump : ℚ
  vOil : ℚ
  vAir : ℚ
  calculationMethod : String
  volumeWarning : String
  deriving DecidableEq, Repr

def emptyVolumes : Volumes :=
  { vSump := 0, vOil := 0, vAir := 0, calculationMethod := "", volumeWarning := "" }

/-- `ThermalCalculator._perform_sanity_check` (warning text abbreviated:
the source interpolates the two volumes into the message). -/
def performSanityCheck (row : AssetRow) (vOilCalculated : ℚ) : String :=
  match row.dOilCapacity with
  | some cap =>
      if cap > 0 then
        let vOilReported := cap * litersToGallons
        if vOilCalculated > 1/100 ∧ vOilReported > 1/100 then
          let diffPercentage := (vOilCalculated - vOilReported) / vOilReported
          if |diffPercentage| > 25/100 then
            "Warning: calculated oil volume differs from reported capacity. Using calculated value for CFM."
          else ""
        else ""
      else ""
  | none => ""

/-- `ThermalCalculator.calculate_volumes`: dimensions are the primary
method, declared oil capacity the fallback, else `insufficient_data`. -/
def calculateVolumes (row : AssetRow) : Volumes :=
  if hasFullDimensionalData row then
    let height := convertToInches row.dHeight
    let width := convertToInches row.dWidth
    let length := convertToInches row.dLength
    let oilHeight := convertToInches row.dOilLevel
    let vSump := height * width * length * inchesCubedToGallons
    let vOil := oilHeight * width * length * inchesCubedToGallons
    let vAir := vSump - vOil
    { vSump := vSump, vOil := vOil, vAir := max vAir 0,
      calculationMethod := "dimensions",
      volumeWarning := performSanityCheck row vOil }
  else if hasOilCapacity row then
    let capacity := row.dOilCapacity.getD 0
    let vOil := capacity * litersToGallons
    let vSump := if defaultOilPercentage > 0 then vOil / defaultOilPercentage else 0
    let vAir := vSump - vOil
    { vSump := vSump, vOil := vOil, vAir := vAir,
      calculationMethod := "oil_capacity", volumeWarning := "" }
  else
    { vSump := 0, vOil := 0, vAir := 0,
      calculationMethod := "insufficient_data",
      volumeWarning := "Insufficient data for volume calculation - no dimensions or oil capacity" }

/-! ## Temperature parsing (`extract_temperatures`) -/

def digitsToNat (ds : List Char) : Nat :=
  ds.foldl (fun acc c => 10 * acc + (c.toNat - 48)) 0

/-- Numeric value of a matched temperature literal: integer digits plus an
optional fractional digit run (an absent fraction adds nothing, as in
Python `float`). -/
def tempValue (intDigits fracDigits : List Char) : ℚ :=
  if fracDigits.isEmpty then (digitsToNat intDigits : ℚ)
  else (digitsToNat intDigits : ℚ) + (digitsToNat fracDigits : ℚ) / (10 ^ fracDigits.length : ℚ)

/-- One attempt of the regex `digits (dot digits)? degree-sign F` at the
head of the input, with the same backtracking as `re` (the optional
fractional group is dropped when the degree sign does not follow it). -/
def matchFahrenheit (l : List Char) : Option (ℚ × List Char) :=
  let ds := l.takeWhile Char.isDigit
  let rest := l.dropWhile Char.isDigit
  if ds.isEmpty then none
  else
    match rest with
    | '.' :: r2 =>
        let fs := r2.takeWhile Char.isDigit
        let r3 := r2.dropWhile Char.isDigit
        if fs.isEmpty then none
        else
          match r3 with
          | '°' :: 'F' :: r4 => some (tempValue ds fs, r4)
          | _ => none
    | '°' :: 'F' :: r4 => some (tempValue ds [], r4)
    | _ => none

/-- `re.findall` scan: try a match at each position, resume after a match
(fuel-indexed; every match consumes at least one character). -/
def scanFahrenheit : Nat → List Char → List ℚ
  | 0, _ => []
  | _ + 1, [] => []
  | n + 1, c :: cs =>
      match matchFahrenheit (c :: cs) with
      | some (q, rest) => q :: scanFahrenheit n rest
      | none => scanFahrenheit n cs

/-- All `°F`-suffixed numbers of a free-text temperature field, in order. -/
def fahrenheitMatches (s : String) : List ℚ :=
  scanFahrenheit s.data.length s.data

def listMinQ : List ℚ → Option ℚ
  | [] => none
  | x :: xs => some (match listMinQ xs with | none => x | some m => min x m)

def listMaxQ : List ℚ → Option ℚ
  | [] => none
  | x :: xs => some (match listMaxQ xs with | none => x | some m => max x m)

/-- `ThermalCalculator.extract_temperatures`. -/
def extractTemperatures (s : String) : Option ℚ × Option ℚ :=
  if s = "" then (none, none)
  else
    let temps := fahrenheitMatches s
    if 2 ≤ temps.length then (listMinQ temps, listMaxQ temps)
    else
      match temps with
      | [t] => (some t, some t)
      | _ => (none, none)

/-- `ThermalCalculator.calculate_temperature_differential`. -/
def calculateTemperatureDifferential (operatingTemps ambientTemps : Option ℚ × Option ℚ) : ℚ :=
  let allTemps := [operatingTemps.1, operatingTemps.2,
                   ambientTemps.1, ambientTemps.2].filterMap id
  if allTemps.length < 2 then 40
  else
    let deltaT := (listMaxQ allTemps).getD 0 - (listMinQ allTemps).getD 0
    if deltaT ≥ 10 then deltaT else 40

/-- Result of `ThermalCalculator.calculate_thermal_expansion`. -/
structure Expansion where
  deltaT : ℚ
  deltaVOil : ℚ
  deltaVAir : ℚ
  vTotalExp : ℚ
  cfmRequired : ℚ
  safetyFactorUsed : ℚ
  deriving DecidableEq, Repr

/-- `ThermalCalculator.calculate_thermal_expansion`. -/
def calculateThermalExpansion (volumes : Volumes) (deltaT safetyFactor : ℚ) : Expansion :=
  let deltaVOil := oilExpansionCoefficient * volumes.vOil * deltaT
  let deltaVAir := airExpansionCoefficient * volumes.vAir * deltaT
  let vTotalExp := deltaVOil + deltaVAir
  { deltaT := deltaT, deltaVOil := deltaVOil, deltaVAir := deltaVAir,
    vTotalExp := vTotalExp,
    cfmRequired := vTotalExp / gallonsToCubicFeet * safetyFactor,
    safetyFactorUsed := safetyFactor }

/-- Result dict of `calculate_complete_thermal_analysis`. -/
structure ThermalResult where
  success : Bool
  errorMessage : String
  cfmRequired : ℚ
  volumes : Option Volumes
  expansion : Option Expansion
  deriving DecidableEq, Repr

/-- Body of `ThermalCalculator.calculate_complete_thermal_analysis`
(signature: `self, row, ambient_temps`). -/
def calculateCompleteThermalAnalysis (row : AssetRow) (ambientTemps : Option ℚ × Option ℚ)
    (safetyFactor : ℚ) : ThermalResult :=
  let volumes := calculateVolumes row
  if volumes.calculationMethod = "insufficient_data" then
    { success := false, errorMessage := volumes.volumeWarning, cfmRequired := 0,
      volumes := some volumes, expansion := none }
  else
    let operatingTemps := extractTemperatures row.dOperatingTemp
    let deltaT := calculateTemperatureDifferential operatingTemps ambientTemps
    let expansion := calculateThermalExpansion volumes deltaT safetyFactor
    { success := true, errorMessage := "", cfmRequired := expansion.cfmRequired,
      volumes := some volumes, expansion := some expansion }

/-! ## Python keyword-argument semantics for the two broken call sites -/

/-- Keyword parameter names accepted by
`calculate_complete_thermal_analysis(self, row, ambient_temps)`. -/
def calcCompleteThermalAnalysisParams : List String := ["row", "ambient_temps"]

/-- Keyword parameter names accepted by `calculate_volumes(self, row)`. -/
def calculateVolumesParams : List String := ["row"]

/-- A CPython call succeeds only when every passed keyword names a
parameter of the callee (no `**kwargs` in either signature). -/
def pythonCallOk (params kwargs : List String) : Bool :=
  kwargs.all (fun k => params.contains k)

/-- The call `calculate_complete_thermal_analysis(row, ambient_temps,
system_type=splash)` at `data_processor.py:92`: raises `TypeError` when the
keyword is not accepted, else runs the body. -/
def splashThermalStep (row : AssetRow) (ambientTemps : Option ℚ × Option ℚ)
    (safetyFactor : ℚ) : Except String ThermalResult :=
  if pythonCallOk calcCompleteThermalAnalysisParams ["system_type"] then
    Except.ok (calculateCompleteThermalAnalysis row ambientTemps safetyFactor)
  else
    Except.error "TypeError: unexpected keyword argument system_type"

/-- The call `calculate_volumes(row, system_type=circulating)` at
`circulating_processor.py:105`. -/
def circVolumesStep (row : AssetRow) : Except String Volumes :=
  if pythonCallOk calculateVolumesParams ["system_type"] then
    Except.ok (calculateVolumes row)
  else
    Except.error "TypeError: unexpected keyword argument system_type"

/-! ## RuleEngine (`rule_engine.py`) -/

/-- `RuleEngine.CI_MATRIX`. -/
def ciMatrix : List (String × String) :=
  [("Low", "Low"), ("Medium", "Medium"), ("Severe", "High"), ("Extreme", "High")]

/-- `RuleEngine.WCCI_MATRIX` (factor, desiccant). -/
def wcciMatrix : List (String × (String × Bool)) :=
  [("No Water Contact, Very Dry Conditions", ("Very Low", false)),
   ("No Water Contact, Typical Humidity", ("Low", true)),
   ("Typical Humidity, but Occasional Rain", ("Medium", true)),
   ("Nearby Steam/Spray", ("Medium", true)),
   ("Other Mild Water Contact", ("Medium", true)),
   ("Other Moderate Water Contact", ("Medium", true)),
   ("Occasional Washdowns", ("Medium", true)),
   ("Severe Water Contact", ("High", true)),
   ("Submerged in Water", ("High", true))]

/-- `RuleEngine.ESI_MATRIX`, keyed by (contamination index, WCCI factor). -/
def esiMatrix : List ((String × String) × String) :=
  [(("Low", "Very Low"), "basic"), (("Low", "Low"), "basic"),
   (("Low", "Medium"), "basic"), (("Low", "High"), "Extended service"),
   (("Medium", "Low"), "basic"), (("Medium", "Medium"), "Extended service"),
   (("Medium", "High"), "Extended service"),
   (("High", "Very Low"), "Extended service"), (("High", "Low"), "Extended service"),
   (("High", "Medium"), "Extended service"), (("High", "High"), "Extended service")]

def lookupAssoc {α β : Type} [DecidableEq α] (l : List (α × β)) (k : α) : Option β :=
  (l.find? (fun p => p.1 = k)).map (fun p => p.2)

/-- Operational factors extracted by `_extract_operational_factors`. -/
structure Factors where
  ci : String
  wcci : String
  esi : String
  desiccantRequired : Bool
  humidityLevel : String
  avgHumidity : ℚ
  oilMistEvidence : Bool
  vibration : String
  mobileApplication : Bool
  particleFilterRequired : Bool
  deriving DecidableEq, Repr

/-- Truthy oil-mist markers of `_extract_operational_factors` (the last
entry is the accented spanish yes, transliterated). -/
def oilMistTruthy : List String := ["true", "yes", "y", "x", "1", "1.0", "si", "sí"]

/-- `RuleEngine._extract_operational_factors`. -/
def extractOperationalFactors (row : AssetRow) (cfg : Config) : Factors :=
  let ci := (lookupAssoc ciMatrix (stripStr row.dContaminantLikelihood)).getD "Medium"
  let wcciInfo := (lookupAssoc wcciMatrix (stripStr row.dWaterContact)).getD ("Low", true)
  let esiDerived := (lookupAssoc esiMatrix (ci, wcciInfo.1)).getD "basic"
  let esi := match cfg.esiManual with
             | some s => if s = "" then esiDerived else s
             | none => esiDerived
  let humidityLevel :=
    match row.dAvgHumidity with
    | some h => if h ≥ 75 then "High" else "Normal"
    | none => "Normal"
  let oilMist := oilMistTruthy.contains (lowerStr row.dOilMistEvidence)
  { ci := ci, wcci := wcciInfo.1, esi := esi, desiccantRequired := wcciInfo.2,
    humidityLevel := humidityLevel,
    avgHumidity := row.dAvgHumidity.getD 50,
    oilMistEvidence := oilMist, vibration := row.dVibration,
    mobileApplication := cfg.mobileApplication.getD false,
    particleFilterRequired := (cfg.highParticleRemoval.getD false) || ci = "High" }

/-- `RuleEngine._parse_vibration_level`: heavy duty needed. -/
def vibrationHeavyDuty (s : String) : Bool :=
  stripStr (lowerStr s) = ">0.4 ips"

/-- `RuleEngine.apply_rule_1`: breather required for criticality A, B1, B2. -/
def applyRule1 (cfg : Config) : Bool :=
  let criticality := cfg.criticality.getD "A"
  criticality = "A" || criticality = "B1" || criticality = "B2"

/-- `RuleEngine.apply_rule_3`: capacity gate, keep rows whose parsed
`Max Air Flow (cfm)` is at least the requirement (`NaN` rows drop out). -/
def applyRule3 (breatherCatalog : List Breather) (cfmRequired : ℚ) : List Breather :=
  if catalogColumns.contains "Max Air Flow (cfm)" then
    breatherCatalog.filter (fun b => b.maxAirFlow.any (fun v => v ≥ cfmRequired))
  else []

/-- Structural model of the per-rule trace lines. -/
inductive TraceStep where
  | rule1 (criticality : String) (breatherRequired : Bool)
  | rule2 (cfmRequired : ℚ)
  | rule2Gpm (cfmRequired totalFlow : ℚ)
  | rule25Gpm (kept : Nat)
  | rule3 (kept : Nat)
  | filterStep (rule : String) (kept : Nat) (fallback : Bool)
  | filterColumnMissing (rule : String)
  | filterNoOp (rule : String)
  | filterSkipped (rule : String)
  | oilMistSkippedSmallSump (vSump : ℚ)
  | fallbackStart
  | suboptimal (constraints : List String)
  | rule5 (kept : Nat) (fallback : Bool)
  | rule5Skipped (reason : String)
  | rule6 (fit nonfit : Nat) (constrained : Bool)
  | rule7 (tag : String)
  deriving DecidableEq, Repr

/-- Outcome of one operational filter: surviving rows plus a trace line. -/
structure FilterResult where
  breathers : List Breather
  trace : TraceStep
  deriving DecidableEq, Repr

/-- Inclusive-fallback policy shared by the non-mobile filters: keep the
ideal subset unless it is empty, in which case keep the input. -/
def inclusiveKeep (orig kept : List Breather) : List Breather :=
  if kept.isEmpty then orig else kept

/-- Column keyword by WCCI factor (`col_map` of `_apply_wcci_filter`). -/
def wcciColMap : List (String × String) :=
  [("Very Low", "water contact conditions low"), ("Low", "water contact conditions low"),
   ("Medium", "water contact conditions medium"), ("High", "water contact conditions high")]

/-- `RuleEngine._apply_wcci_filter`. -/
def applyWcciFilter (breathers : List Breather) (wcciFactor : String) : FilterResult :=
  match (lookupAssoc wcciColMap wcciFactor).bind (findColumn catalogColumns) with
  | none => { breathers := breathers, trace := .filterColumnMissing "wcci" }
  | some col =>
      { breathers := inclusiveKeep breathers (breathers.filter (fun b => colBool b col)),
        trace := .filterStep "wcci" (breathers.filter (fun b => colBool b col)).length
                   (breathers.filter (fun b => colBool b col)).isEmpty }

/-- `RuleEngine._apply_desiccant_filter`: informational only. -/
def applyDesiccantFilter (breathers : List Breather) (_desiccantRequired : Bool) : FilterResult :=
  { breathers := breathers, trace := .filterNoOp "desiccant" }

/-- `RuleEngine._apply_extended_service_filter`. -/
def applyExtendedServiceFilter (breathers : List Breather) (esi : String) : FilterResult :=
  match findColumn catalogColumns "extended service" with
  | none => { breathers := breathers, trace := .filterColumnMissing "esi" }
  | some col =>
      if esi ≠ "Extended service" then
        { breathers := inclusiveKeep breathers (breathers.filter (fun b => !(colBool b col))),
          trace := .filterStep "esi" (breathers.filter (fun b => !(colBool b col))).length
                     (breathers.filter (fun b => !(colBool b col))).isEmpty }
      else
        { breathers := inclusiveKeep breathers (breathers.filter (fun b => colBool b col)),
          trace := .filterStep "esi" (breathers.filter (fun b => colBool b col)).length
                     (breathers.filter (fun b => colBool b col)).isEmpty }

/-- `RuleEngine._apply_humidity_filter`. -/
def applyHumidityFilter (breathers : List Breather) (humidityLevel : String)
    (_avgHumidity : ℚ) : FilterResult :=
  match findColumn catalogColumns (if humidityLevel = "High" then "rh >75%" else "rh 25 to 75") with
  | none => { breathers := breathers, trace := .filterColumnMissing "humidity" }
  | some col =>
      { breathers := inclusiveKeep breathers (breathers.filter (fun b => colBool b col)),
        trace := .filterStep "humidity" (breathers.filter (fun b => colBool b col)).length
                   (breathers.filter (fun b => colBool b col)).isEmpty }

/-- `RuleEngine._apply_contamination_filter`. -/
def applyContaminationFilter (breathers : List Breather) (ci : String)
    (particleRequired : Bool) : FilterResult :=
  if ci = "Low" ∧ ¬particleRequired then
    { breathers := breathers, trace := .filterNoOp "contamination" }
  else
    match findColumn catalogColumns "extended service" with
    | none => { breathers := breathers, trace := .filterColumnMissing "contamination" }
    | some col =>
        { breathers := inclusiveKeep breathers (breathers.filter (fun b => colBool b col)),
          trace := .filterStep "contamination" (breathers.filter (fun b => colBool b col)).length
                     (breathers.filter (fun b => colBool b col)).isEmpty }

/-- `RuleEngine._apply_oil_mist_filter`. -/
def applyOilMistFilter (breathers : List Breather) (oilMist : Bool) : FilterResult :=
  match findColumn catalogColumns "integrated oil mist control" with
  | none => { breathers := breathers, trace := .filterColumnMissing "oil_mist" }
  | some col =>
      if ¬oilMist then
        { breathers := inclusiveKeep breathers (breathers.filter (fun b => !(colBool b col))),
          trace := .filterStep "oil_mist" (breathers.filter (fun b => !(colBool b col))).length
                     (breathers.filter (fun b => !(colBool b col))).isEmpty }
      else
        { breathers := inclusiveKeep breathers (breathers.filter (fun b => colBool b col)),
          trace := .filterStep "oil_mist" (breathers.filter (fun b => colBool b col)).length
                     (breathers.filter (fun b => colBool b col)).isEmpty }

/-- `RuleEngine._apply_vibration_filter`. -/
def applyVibrationFilter (breathers : List Breather) (vibrationStr : String) : FilterResult :=
  match findColumn catalogColumns "high vibration" with
  | none => { breathers := breathers, trace := .filterColumnMissing "vibration" }
  | some col =>
      if ¬(vibrationHeavyDuty vibrationStr) then
        { breathers := inclusiveKeep breathers (breathers.filter (fun b => !(colBool b col))),
          trace := .filterStep "vibration" (breathers.filter (fun b => !(colBool b col))).length
                     (breathers.filter (fun b => !(colBool b col))).isEmpty }
      else
        { breathers := inclusiveKeep breathers (breathers.filter (fun b => colBool b col)),
          trace := .filterStep "vibration" (breathers.filter (fun b => colBool b col)).length
                     (breathers.filter (fun b => colBool b col)).isEmpty }

/-- `RuleEngine._apply_mobile_filter`: strict (no inclusive fallback) when
mobile use is required. -/
def applyMobileFilter (breathers : List Breather) (mobile : Bool) : FilterResult :=
  match findColumn catalogColumns "mobile applications" with
  | none => { breathers := breathers, trace := .filterColumnMissing "mobile" }
  | some col =>
      if ¬mobile then
        { breathers := inclusiveKeep breathers (breathers.filter (fun b => !(colBool b col))),
          trace := .filterStep "mobile" (breathers.filter (fun b => !(colBool b col))).length
                     (breathers.filter (fun b => !(colBool b col))).isEmpty }
      else
        { breathers := breathers.filter (fun b => colBool b col),
          trace := .filterStep "mobile" (breathers.filter (fun b => colBool b col)).length false }

/-- The rule-4 filter chain of `apply_rule_4` (dict insertion order),
parameterised by the extracted factors. -/
def rule4FilterMap (factors : Factors) : List (String × (List Breather → FilterResult)) :=
  [("wcci", fun bs => applyWcciFilter bs factors.wcci),
   ("desiccant", fun bs => applyDesiccantFilter bs factors.desiccantRequired),
   ("esi", fun bs => applyExtendedServiceFilter bs factors.esi),
   ("humidity", fun bs => applyHumidityFilter bs factors.humidityLevel factors.avgHumidity),
   ("contamination", fun bs => applyContaminationFilter bs factors.ci factors.particleFilterRequired),
   ("oil_mist", fun bs => applyOilMistFilter bs factors.oilMistEvidence),
   ("vibration", fun bs => applyVibrationFilter bs factors.vibration)]

/-- The filter loop of `apply_rule_4`: skip excluded filters, stop early
when the set empties (the emptying trace line is still recorded). -/
def runFilters (exclude : List String) :
    List (String × (List Breather → FilterResult)) → List Breather →
    List Breather × List TraceStep
  | [], bs => (bs, [])
  | (name, f) :: rest, bs =>
      if exclude.contains name then
        let r2 := runFilters exclude rest bs
        (r2.1, .filterSkipped name :: r2.2)
      else
        let r := f bs
        if r.breathers.isEmpty then (r.breathers, [r.trace])
        else
          let r2 := runFilters exclude rest r.breathers
          (r2.1, r.trace :: r2.2)

/-- `RuleEngine.apply_rule_4`: strict mobile filter first, then the
operational filter chain (oil mist dropped when the sump is under 15 gal). -/
def applyRule4 (candidateBreathers : List Breather) (row : AssetRow) (cfg : Config)
    (volumes : Volumes) (exclude : List String) : List Breather × List TraceStep :=
  let factors := extractOperationalFactors row cfg
  let mobileStep :=
    if factors.mobileApplication ∧ ¬(exclude.contains "mobile") then
      let r := applyMobileFilter candidateBreathers factors.mobileApplication
      (r.breathers, [r.trace])
    else (candidateBreathers, ([] : List TraceStep))
  let vSump := volumes.vSump
  let filterStepChain :=
    if vSump < 15 then
      ((rule4FilterMap factors).filter (fun p => p.1 ≠ "oil_mist"),
       [TraceStep.oilMistSkippedSmallSump vSump])
    else (rule4FilterMap factors, ([] : List TraceStep))
  let run := runFilters exclude filterStepChain.1 mobileStep.1
  (run.1, mobileStep.2 ++ filterStepChain.2 ++ run.2)

/-- `RuleEngine.apply_rule_5`: sump-capacity gate with inclusive fallback. -/
def applyRule5 (candidateBreathers : List Breather) (volumes : Volumes)
    (systemType : String) : List Breather × TraceStep :=
  let sumpColName := if systemType = "circulating" then "circulating/hyd sump volume max gal."
                     else "sump volume max gal"
  let assetVolume := volumes.vOil
  if assetVolume ≤ 0 then (candidateBreathers, .rule5Skipped "asset volume is 0")
  else
    match findColumn catalogColumns sumpColName with
    | none => (candidateBreathers, .rule5Skipped "column not found")
    | some col =>
        let suitable := candidateBreathers.filter
          (fun b => (colNum b col).any (fun v => v ≥ assetVolume))
        if suitable.isEmpty then (candidateBreathers, .rule5 0 true)
        else (suitable, .rule5 suitable.length false)

/-- Height/diameter clearance limits (`available_space`). -/
structure Space where
  heightLimit : Option ℚ
  diameterLimit : Option ℚ
  deriving DecidableEq, Repr

/-- `DataProcessor._parse_available_space` (shared wording categories). -/
def parseAvailableSpace (spaceStr : String) : Space :=
  if stripStr spaceStr = "" then { heightLimit := none, diameterLimit := none }
  else
    let s := lowerStr spaceStr
    if strContains s "less than 2 inches" then { heightLimit := some 2, diameterLimit := some 2 }
    else if strContains s "2 to <4 inches" then { heightLimit := some 4, diameterLimit := some 4 }
    else if strContains s "4 to <6 inches" then { heightLimit := some 6, diameterLimit := some 6 }
    else if strContains s "greater than 6 inches" then { heightLimit := none, diameterLimit := none }
    else if strContains s "no port available" then { heightLimit := some 0, diameterLimit := some 0 }
    else { heightLimit := none, diameterLimit := none }

/-- `RuleEngine.apply_rule_6`: space-fit split (`NaN` dimensions fail the
mask, hence land in the non-fitting part, exactly as in pandas). -/
def applyRule6 (candidateBreathers : List Breather) (space : Space) :
    List Breather × List Breather × TraceStep :=
  match space.heightLimit, space.diameterLimit with
  | none, none => (candidateBreathers, [], .rule6 candidateBreathers.length 0 false)
  | _, _ =>
      let mask := fun (b : Breather) =>
        (match space.heightLimit with
         | some h => b.heightIn.any (fun v => v ≤ h)
         | none => true) &&
        (match space.diameterLimit with
         | some d => b.diameterIn.any (fun v => v ≤ d)
         | none => true)
      let fitting := candidateBreathers.filter mask
      let nonFitting := candidateBreathers.filter (fun b => !(mask b))
      (fitting, nonFitting, .rule6 fitting.length nonFitting.length true)

/-! ## Ranking (`_rank_and_select_best_breather` and the two selectors) -/

/-- Stable insertion of one element under a boolean order. -/
def insertB {α : Type} (le : α → α → Bool) (x : α) : List α → List α
  | [] => [x]
  | y :: ys => if le x y then x :: y :: ys else y :: insertB le x ys

/-- Insertion sort model of `DataFrame.sort_values` (only head-minimality
and membership are relied on; the source key order on ties is unspecified
since pandas defaults to quicksort). -/
def sortB {α : Type} (le : α → α → Bool) : List α → List α
  | [] => []
  | x :: xs => insertB le x (sortB le xs)

/-- Lexicographic comparison of a rational pair. -/
def lexLe2 (x y : ℚ × ℚ) : Bool :=
  if x.1 < y.1 then true
  else if y.1 < x.1 then false
  else x.2 ≤ y.2

/-- Lexicographic comparison of a rational triple. -/
def lexLe3 (x y : ℚ × ℚ × ℚ) : Bool :=
  if x.1 < y.1 then true
  else if y.1 < x.1 then false
  else lexLe2 x.2 y.2

/-- Ranking context (`context` dict of the processors). -/
structure Ctx where
  cfmRequired : ℚ
  desiccantRequired : Bool
  vOil : ℚ
  systemType : String
  deriving DecidableEq, Repr

/-- `CFM_Margin` column: parsed max air flow (`NaN` filled with 999) minus
the requirement. -/
def cfmMargin (ctx : Ctx) (b : Breather) : ℚ :=
  b.maxAirFlow.getD 999 - ctx.cfmRequired

/-- Parsed `Adsorption Capacity (mL)` with `NaN` filled by 0. -/
def adsorptionVal (b : Breather) : ℚ :=
  b.adsorption.getD 0

/-- System-type dependent sump-capacity column keyword. -/
def sumpColName (ctx : Ctx) : String :=
  if ctx.systemType = "circulating" then "circulating/hyd sump volume max gal."
  else "sump volume max gal"

/-- `Sump_Margin` column: parsed sump rating (`NaN` filled with 99999)
minus the asset oil volume. -/
def sumpMargin (ctx : Ctx) (col : String) (b : Breather) : ℚ :=
  (colNum b col).getD 99999 - ctx.vOil

/-- `RuleEngine._rank_and_select_best_breather`: conditional sort order
(circulating: sump margin, then CFM margin, then adsorption descending;
splash: CFM margin, then sump margin, then adsorption descending; CFM
margin then adsorption descending when no sump data). -/
def rankAndSelectBestBreather (candidates : List Breather) (ctx : Ctx) : Option Breather :=
  if candidates.isEmpty then none
  else
    match findColumn catalogColumns (sumpColName ctx) with
    | some col =>
        if ctx.vOil > 0 then
          if ctx.systemType = "circulating" then
            (sortB (fun a b =>
              lexLe3 (sumpMargin ctx col a, cfmMargin ctx a, -adsorptionVal a)
                     (sumpMargin ctx col b, cfmMargin ctx b, -adsorptionVal b)) candidates).head?
          else
            (sortB (fun a b =>
              lexLe3 (cfmMargin ctx a, sumpMargin ctx col a, -adsorptionVal a)
                     (cfmMargin ctx b, sumpMargin ctx col b, -adsorptionVal b)) candidates).head?
        else
          (sortB (fun a b =>
            lexLe2 (cfmMargin ctx a, -adsorptionVal a)
                   (cfmMargin ctx b, -adsorptionVal b)) candidates).head?
    | none =>
        (sortB (fun a b =>
          lexLe2 (cfmMargin ctx a, -adsorptionVal a)
                 (cfmMargin ctx b, -adsorptionVal b)) candidates).head?

/-- `RuleEngine.select_lcc_breather`: rebuildables (then disposables, then
all) by CFM margin ascending, adsorption descending. -/
def selectLccBreather (allCandidates : List Breather) (ctx : Ctx) : Option Breather :=
  if allCandidates.isEmpty then none
  else
    let lccLe := fun (a b : Breather) =>
      lexLe2 (cfmMargin ctx a, -adsorptionVal a) (cfmMargin ctx b, -adsorptionVal b)
    let rebuildables := allCandidates.filter (fun b => containsCI b.btype "Rebuildable")
    if ¬rebuildables.isEmpty then (sortB lccLe rebuildables).head?
    else
      let disposables := allCandidates.filter (fun b => containsCI b.btype "Disposable")
      if ¬disposables.isEmpty then (sortB lccLe disposables).head?
      else (sortB lccLe allCandidates).head?

/-- `RuleEngine.select_cost_benefit_breather`: disposables only; sump
margin, then CFM margin, then adsorption — each ascending — when sump data
exists, else CFM margin then adsorption, both ascending. -/
def selectCostBenefitBreather (allCandidates : List Breather) (ctx : Ctx) : Option Breather :=
  if allCandidates.isEmpty then none
  else
    let disposables := allCandidates.filter (fun b => containsCI b.btype "Disposable")
    if disposables.isEmpty then none
    else
      match findColumn catalogColumns (sumpColName ctx) with
      | some col =>
          if ctx.vOil > 0 then
            (sortB (fun a b =>
              lexLe3 (sumpMargin ctx col a, cfmMargin ctx a, adsorptionVal a)
                     (sumpMargin ctx col b, cfmMargin ctx b, adsorptionVal b)) disposables).head?
          else
            (sortB (fun a b =>
              lexLe2 (cfmMargin ctx a, adsorptionVal a)
                     (cfmMargin ctx b, adsorptionVal b)) disposables).head?
      | none =>
          (sortB (fun a b =>
            lexLe2 (cfmMargin ctx a, adsorptionVal a)
                   (cfmMargin ctx b, adsorptionVal b)) disposables).head?

/-! ## Rule 7 (final recommendation) -/

/-- Return value of the two recommendation helpers (`status` is absent —
`none` — on the criticality-A success path, as in the source dicts). -/
structure RecResult where
  selectedBreather : List Breather
  status : Option String
  installationNotes : String
  trace : TraceStep
  deriving DecidableEq, Repr

/-- `RuleEngine._no_solution_result`. -/
def noSolutionResult : RecResult :=
  { selectedBreather := [], status := some "No Solution Found",
    installationNotes := "No suitable breathers found after all filters.",
    trace := .rule7 "no viable solution" }

/-- `RuleEngine._get_critical_a_recommendation`: best rebuildable plus best
disposable (deduplicated by model). -/
def getCriticalARecommendation (fittingBreathers nonFittingBreathers : List Breather)
    (ctx : Ctx) : RecResult :=
  let allCandidates := fittingBreathers ++ nonFittingBreathers
  if allCandidates.isEmpty then noSolutionResult
  else
    let rebuildables := allCandidates.filter (fun b => containsCI b.btype "Rebuildable")
    let disposables := allCandidates.filter (fun b => containsCI b.btype "Disposable")
    let optimalChoice := rankAndSelectBestBreather rebuildables ctx
    let costEffectiveChoice := rankAndSelectBestBreather disposables ctx
    let recs1 := match optimalChoice with | some o => [o] | none => []
    let recs := recs1 ++
      (match costEffectiveChoice with
       | some c => if recs1.any (fun r => r.model = c.model) then [] else [c]
       | none => [])
    if recs.isEmpty then noSolutionResult
    else
      { selectedBreather := recs, status := none,
        installationNotes := "Criticality A options: best rebuildable and best disposable.",
        trace := .rule7 "criticality A logic applied" }

/-- `RuleEngine._get_standard_recommendation`. -/
def getStandardRecommendation (fittingBreathers nonFittingBreathers : List Breather)
    (spaceDataProvided : Bool) (ctx : Ctx) : RecResult :=
  if spaceDataProvided then
    if ¬fittingBreathers.isEmpty then
      match rankAndSelectBestBreather fittingBreathers ctx with
      | some s =>
          { selectedBreather := [s], status := some "Optimal",
            installationNotes := "Direct installation.",
            trace := .rule7 "optimal solution fits space" }
      | none => noSolutionResult
    else if ¬nonFittingBreathers.isEmpty then
      match rankAndSelectBestBreather nonFittingBreathers ctx with
      | some s =>
          { selectedBreather := [s], status := some "Sub-optimal",
            installationNotes := "Exceeds available space. Remote installation may be required.",
            trace := .rule7 "sub-optimal solution space constraints" }
      | none => noSolutionResult
    else noSolutionResult
  else
    let allCandidates := fittingBreathers ++ nonFittingBreathers
    if ¬allCandidates.isEmpty then
      match rankAndSelectBestBreather allCandidates ctx with
      | some s =>
          { selectedBreather := [s], status := some "Optimal",
            installationNotes := "Manual space verification required for the optimal choice.",
            trace := .rule7 "no space data - manual verification needed" }
      | none => noSolutionResult
    else noSolutionResult

/-- Sub-optimal note text for a relaxation set (`str(list)` rendering of
the source, quotes elided). -/
def suboptimalNoteStr (constraints : List String) : String :=
  "Sub-optimal: Requirements for [" ++ String.intercalate ", " constraints ++ "] were relaxed."

/-- Return value of `apply_rule_7`. -/
structure Rule7Out where
  selectedBreather : List Breather
  status : String
  installationNotes : String
  trace : TraceStep
  deriving DecidableEq, Repr

/-- `RuleEngine.apply_rule_7`, with the source conditional-expression
grouping for `primary_status` reproduced exactly. -/
def applyRule7 (fittingBreathers nonFittingBreathers : List Breather) (space : Space)
    (spaceDataProvided : Bool) (cfg : Config) (suboptimalNote : Option (List String))
    (ctx : Ctx) : Rule7Out :=
  let primaryStatus :=
    if suboptimalNote.isSome then "Sub-optimal"
    else if ¬nonFittingBreathers.isEmpty then
      (if ¬fittingBreathers.isEmpty then "Optimal"
       else if space.heightLimit = some 0 then "Optimal - Remote Installation"
       else "Sub-optimal")
    else ""
  let recOut :=
    if cfg.criticality = some "A" then
      getCriticalARecommendation fittingBreathers nonFittingBreathers ctx
    else
      getStandardRecommendation fittingBreathers nonFittingBreathers spaceDataProvided ctx
  let finalStatus := if primaryStatus ≠ "" then primaryStatus
                     else recOut.status.getD "No Solution Found"
  let finalNotes :=
    match suboptimalNote with
    | some cs => suboptimalNoteStr cs ++ "\n" ++ recOut.installationNotes
    | none => recOut.installationNotes
  { selectedBreather := recOut.selectedBreather, status := finalStatus,
    installationNotes := finalNotes, trace := recOut.trace }

/-! ## Splash processor (`data_processor.py`) -/

/-- Per-asset outcome of the splash pipeline (`AnalysisResult`). -/
structure SplashResult where
  success : Bool
  ruleTrace : List TraceStep
  thermalAnalysis : Option ThermalResult
  selectedBreather : List Breather
  resultStatus : String
  installationNotes : String
  errorMessage : String
  rejectedCandidates : List (String × String)
  operationalFactors : Option Factors
  lccBreather : Option Breather
  costBenefitBreather : Option Breather
  deriving DecidableEq, Repr

/-- The freshly initialised result dict of `process_single_record`. -/
def initialSplashResult : SplashResult :=
  { success := false, ruleTrace := [], thermalAnalysis := none,
    selectedBreather := [], resultStatus := "Failed", installationNotes := "",
    errorMessage := "", rejectedCandidates := [], operationalFactors := none,
    lccBreather := none, costBenefitBreather := none }

/-- `DataProcessor._update_result_with_error`. -/
def updateResultWithError (r : SplashResult) (message : String) : SplashResult :=
  { r with errorMessage := message, resultStatus := "No Solution Found",
           installationNotes := "No suitable breathers found that meet all technical requirements." }

/-- `DataProcessor._log_rejections`: up to two dropped candidates per stage. -/
def logRejections (before after : List Breather) (reason : String) :
    List (String × String) :=
  if after.length < before.length then
    ((before.filter (fun b => ¬(after.contains b))).take 2).map
      (fun b => (b.brand ++ " " ++ b.model, reason))
  else []

/-- The fixed relaxation attempts of `process_single_record` (the mobile
constraint is deliberately absent from every set). -/
def fallbackAttempts : List (List String) :=
  [["vibration"], ["oil_mist"], ["vibration", "oil_mist"], ["esi"],
   ["vibration", "oil_mist", "esi"]]

/-- The fallback loop body: first relaxation attempt whose rule-4 replay
(from the capacity-gate survivors) is non-empty, with its constraint set. -/
def runFallbackAttemptsAux (initialCandidates : List Breather) (row : AssetRow)
    (cfg : Config) (volumes : Volumes) :
    List (List String) → Option (List Breather × List String)
  | [] => none
  | cs :: rest =>
      let r := (applyRule4 initialCandidates row cfg volumes cs).1
      if r.isEmpty then runFallbackAttemptsAux initialCandidates row cfg volumes rest
      else some (r, cs)

/-- The relaxation loop of `process_single_record` over `fallbackAttempts`. -/
def runFallbackAttempts (initialCandidates : List Breather) (row : AssetRow)
    (cfg : Config) (volumes : Volumes) : Option (List Breather × List String) :=
  runFallbackAttemptsAux initialCandidates row cfg volumes fallbackAttempts

/-- The operational-filter stage of `process_single_record` with its
fallback-relaxation escalation: the initial rule-4 pass, replayed through
`runFallbackAttempts` when it empties; yields the surviving candidates,
the optional sub-optimal note and the extra trace lines. -/
def splashAfterFallback (initialCandidates : List Breather) (row : AssetRow)
    (cfg : Config) (volumes : Volumes) :
    List Breather × Option (List String) × List TraceStep :=
  if (applyRule4 initialCandidates row cfg volumes []).1.isEmpty then
    match runFallbackAttempts initialCandidates row cfg volumes with
    | some (bs, cs) => (bs, some cs, [TraceStep.fallbackStart, TraceStep.suboptimal cs])
    | none => ([], none, [TraceStep.fallbackStart])
  else ((applyRule4 initialCandidates row cfg volumes []).1, none, [])

/-- Lines 97-166 of `DataProcessor.process_single_record`: the selection
pipeline run after a successful thermal analysis.  `tr0` is the trace
accumulated before this point (rule 1). -/
def splashSelectionPhase (breatherCatalog : List Breather) (row : AssetRow)
    (cfg : Config) (thermal : ThermalResult) (tr0 : List TraceStep) : SplashResult :=
  let cfmRequired := thermal.cfmRequired
  let volumes := thermal.volumes.getD emptyVolumes
  let vOil := volumes.vOil
  let factors := extractOperationalFactors row cfg
  let r0 : SplashResult :=
    { initialSplashResult with
        thermalAnalysis := some thermal,
        operationalFactors := some factors,
        ruleTrace := tr0 ++ [TraceStep.rule2 cfmRequired] }
  let initialCandidates := applyRule3 breatherCatalog cfmRequired
  let r1 := { r0 with ruleTrace := r0.ruleTrace ++ [TraceStep.rule3 initialCandidates.length] }
  if initialCandidates.isEmpty then
    updateResultWithError r1 "No breathers found with the required CFM"
  else
    let rule4Initial := applyRule4 initialCandidates row cfg volumes []
    let r2 :=
      { r1 with
          rejectedCandidates := r1.rejectedCandidates ++
            logRejections initialCandidates rule4Initial.1 "Operational Context (Rule 4)",
          ruleTrace := r1.ruleTrace ++ rule4Initial.2 }
    let afterFallback := splashAfterFallback initialCandidates row cfg volumes
    let candidateBreathers := afterFallback.1
    let suboptimalNote := afterFallback.2.1
    let r3 := { r2 with ruleTrace := r2.ruleTrace ++ afterFallback.2.2 }
    if candidateBreathers.isEmpty then
      updateResultWithError r3 "No breathers meet core operational requirements."
    else
      let rule5Result := applyRule5 candidateBreathers volumes "splash"
      let r4 :=
        { r3 with
            rejectedCandidates := r3.rejectedCandidates ++
              logRejections candidateBreathers rule5Result.1 "Sump Volume (Rule 5)",
            ruleTrace := r3.ruleTrace ++ [rule5Result.2] }
      if rule5Result.1.isEmpty then
        updateResultWithError r4 "No breathers meet sump volume requirements"
      else
        let spaceDataProvided := stripStr row.dClearance ≠ ""
        let availableSpace := parseAvailableSpace row.dClearance
        let rule6Result := applyRule6 rule5Result.1 availableSpace
        let r5 :=
          { r4 with
              rejectedCandidates := r4.rejectedCandidates ++
                logRejections rule5Result.1 rule6Result.1 "Available Space (Rule 6)" }
        let ctx : Ctx := { cfmRequired := cfmRequired,
                           desiccantRequired := factors.desiccantRequired,
                           vOil := vOil, systemType := "splash" }
        let rule7Result := applyRule7 rule6Result.1 rule6Result.2.1 availableSpace
          spaceDataProvided cfg suboptimalNote ctx
        let r6 :=
          { r5 with
              ruleTrace := r5.ruleTrace ++ [rule6Result.2.2, rule7Result.trace],
              selectedBreather := rule7Result.selectedBreather,
              resultStatus := rule7Result.status,
              installationNotes := rule7Result.installationNotes,
              success := true }
        let allCandidates := rule6Result.1 ++ rule6Result.2.1
        { r6 with
            lccBreather := selectLccBreather allCandidates ctx,
            costBenefitBreather := selectCostBenefitBreather allCandidates ctx }

/-- `DataProcessor.process_single_record`. -/
def processSingleRecord (breatherCatalog : List Breather) (row : AssetRow)
    (cfg : Config) : SplashResult :=
  if breatherCatalog.isEmpty then
    updateResultWithError initialSplashResult "Breather catalog is not loaded or is empty."
  else
    let required := applyRule1 cfg
    let tr0 := [TraceStep.rule1 (cfg.criticality.getD "A") required]
    let r := { initialSplashResult with ruleTrace := tr0 }
    if ¬required then
      { r with resultStatus := "No Breather Required", success := true }
    else
      let ambientTemps := (cfg.minAmbTemp, cfg.maxAmbTemp)
      let safetyFactor := cfg.safetyFactor.getD (14 / 10)
      match splashThermalStep row ambientTemps safetyFactor with
      | Except.error e => updateResultWithError r e
      | Except.ok thermal =>
          if ¬thermal.success then
            updateResultWithError { r with thermalAnalysis := some thermal }
              ("Thermal calculation failed: " ++ thermal.errorMessage)
          else splashSelectionPhase breatherCatalog row cfg thermal tr0

/-- Ambient-temperature defaulting plus per-asset override merge of
`DataProcessor.process_all_records` (an override key wins only when its
value is not `None`). -/
def effectiveConfigSplash (globalConfig : Config) (overrides : List (Nat × Config))
    (idx : Nat) : Config :=
  let base :=
    { globalConfig with
        minAmbTemp := some (globalConfig.minAmbTemp.getD 60),
        maxAmbTemp := some (globalConfig.maxAmbTemp.getD 80) }
  match lookupAssoc overrides idx with
  | none => base
  | some p =>
      { criticality := p.criticality.orElse (fun _ => base.criticality),
        safetyFactor := p.safetyFactor.orElse (fun _ => base.safetyFactor),
        minAmbTemp := p.minAmbTemp.orElse (fun _ => base.minAmbTemp),
        maxAmbTemp := p.maxAmbTemp.orElse (fun _ => base.maxAmbTemp),
        mobileApplication := p.mobileApplication.orElse (fun _ => base.mobileApplication),
        highParticleRemoval := p.highParticleRemoval.orElse (fun _ => base.highParticleRemoval),
        esiManual := p.esiManual.orElse (fun _ => base.esiManual),
        enableManualGpm := p.enableManualGpm.orElse (fun _ => base.enableManualGpm),
        manualGpmOverride := p.manualGpmOverride.orElse (fun _ => base.manualGpmOverride),
        brandFilter := p.brandFilter.orElse (fun _ => base.brandFilter) }

/-- The result-accumulating loop of `DataProcessor.process_all_records`
(insertion-ordered results dict modelled as an association list). -/
def processAllRecordsAux (breatherCatalog : List Breather) (globalConfig : Config)
    (overrides : List (Nat × Config)) :
    List (Nat × AssetRow) → List (Nat × SplashResult) → List (Nat × SplashResult)
  | [], acc => acc.reverse
  | (idx, row) :: rest, acc =>
      let finalConfig := effectiveConfigSplash globalConfig overrides idx
      processAllRecordsAux breatherCatalog globalConfig overrides rest
        ((idx, processSingleRecord breatherCatalog row finalConfig) :: acc)

/-- `DataProcessor.process_all_records`. -/
def processAllRecords (breatherCatalog : List Breather) (globalConfig : Config)
    (overrides : List (Nat × Config)) (dataToProcess : List (Nat × AssetRow)) :
    List (Nat × SplashResult) :=
  processAllRecordsAux breatherCatalog globalConfig overrides dataToProcess []

/-! ## Circulating processor (`circulating_processor.py`) -/

/-- Flow-resolution method (`calculation_method` f-strings, structurally). -/
inductive FlowMethod where
  | manualOverride (gpm : ℚ)
  | crossReference (pumps : Nat)
  | estimatedFromOilCapacity (liters : ℚ)
  | safetyMinimum
  | errorMethod
  deriving DecidableEq, Repr

/-- Result of `calculate_gpm_and_cfm`. -/
structure FlowResult where
  cfmRequired : ℚ
  totalFlow : ℚ
  calculationMethod : FlowMethod
  deriving DecidableEq, Repr

/-- `CirculatingSystemsDataProcessor._convert_to_gpm` (LPM when the unit
text contains `lpm`, else value taken as GPM already). -/
def convertToGpm (flowValue : Option ℚ) (flowUnit : String) : ℚ :=
  match flowValue with
  | none => 0
  | some v =>
      if v ≤ 0 then 0
      else if strContains (stripStr (lowerStr flowUnit)) "lpm" then v * litersToGallons
      else v

/-- `CirculatingSystemsDataProcessor._find_pump_siblings`: flow data of the
other records of the same machine whose maintenance point is a pump. -/
def findPumpSiblings (fullDataset : List (Nat × AssetRow)) (targetMachine : String)
    (currentIndex : Nat) : List (ℚ × String) :=
  fullDataset.filterMap (fun p =>
    if p.1 = currentIndex then none
    else if stripStr p.2.machine = stripStr targetMachine then
      if strContains (lowerStr p.2.maintPoint) "pump" then
        match p.2.dFlowRate with
        | some fr => if fr > 0 then some (fr, p.2.dFlowUnit) else none
        | none => none
      else none
    else none)

/-- `CirculatingSystemsDataProcessor.calculate_gpm_and_cfm`: manual
override, then pump-sibling cross reference, then the capacity estimate,
then the 15-GPM safety minimum; CFM = flow / 7.48 * 1.4 (constant). -/
def calculateGpmAndCfm (fullDataset : List (Nat × AssetRow)) (row : AssetRow)
    (rowIndex : Nat) (finalConfig : Config) : FlowResult :=
  if finalConfig.enableManualGpm.getD false ∧ finalConfig.manualGpmOverride.getD 0 > 0 then
    let manualGpm := finalConfig.manualGpmOverride.getD 0
    { cfmRequired := manualGpm / (748 / 100) * (14 / 10), totalFlow := manualGpm,
      calculationMethod := .manualOverride manualGpm }
  else
    let machineName := stripStr row.machine
    let step1 : ℚ × FlowMethod :=
      if machineName ≠ "" then
        let siblings := findPumpSiblings fullDataset machineName rowIndex
        if ¬siblings.isEmpty then
          ((siblings.map (fun s => convertToGpm (some s.1) s.2)).sum,
           FlowMethod.crossReference siblings.length)
        else (0, FlowMethod.errorMethod)
      else (0, FlowMethod.errorMethod)
    let step2 : ℚ × FlowMethod :=
      if step1.1 = 0 then
        match row.dOilCapacity with
        | some cap =>
            if cap > 0 then (cap / 3 * litersToGallons, FlowMethod.estimatedFromOilCapacity cap)
            else step1
        | none => step1
      else step1
    let step3 : ℚ × FlowMethod :=
      if step2.1 ≤ 0 then ((15 : ℚ), FlowMethod.safetyMinimum) else step2
    { cfmRequired := step3.1 / (748 / 100) * (14 / 10), totalFlow := step3.1,
      calculationMethod := step3.2 }

/-- Per-asset outcome of the circulating pipeline. -/
structure CircResult where
  success : Bool
  ruleTrace : List TraceStep
  flowAnalysis : Option FlowResult
  selectedBreather : List Breather
  resultStatus : String
  installationNotes : String
  errorMessage : String
  gpmAnalysis : Option (ℚ × ℚ)
  lccBreather : Option Breather
  costBenefitBreather : Option Breather
  deriving DecidableEq, Repr

/-- The freshly initialised result dict of `_process_single_record`. -/
def initialCircResult : CircResult :=
  { success := false, ruleTrace := [], flowAnalysis := none,
    selectedBreather := [], resultStatus := "Failed", installationNotes := "",
    errorMessage := "", gpmAnalysis := none, lccBreather := none,
    costBenefitBreather := none }

/-- Lines 108-150 of `_process_single_record`: the circulating selection
pipeline run after the flow analysis and the volume calculation (the
source guards the GPM pre-filter on the presence of the
`Max Fluid Flow (gpm)` column, which the contract schema always has). -/
def circSelectionPhase (breatherCatalog : List Breather) (row : AssetRow)
    (cfg : Config) (flow : FlowResult) (volumes : Volumes) (r0 : CircResult) : CircResult :=
  let cfmRequired := flow.cfmRequired
  let assetGpm := flow.totalFlow
  let vOil := volumes.vOil
  if breatherCatalog.isEmpty then
    { r0 with errorMessage := "Breather catalog is empty or filtered out." }
  else
    let candidates1 :=
      breatherCatalog.filter (fun b => b.maxFluidFlow.any (fun v => v ≥ assetGpm))
    let r1 := { r0 with ruleTrace := r0.ruleTrace ++ [TraceStep.rule25Gpm candidates1.length] }
    if candidates1.isEmpty then
      { r1 with errorMessage := "No breathers support required GPM." }
    else
      let candidates2 := applyRule3 candidates1 cfmRequired
      let r2 := { r1 with ruleTrace := r1.ruleTrace ++ [TraceStep.rule3 candidates2.length] }
      if candidates2.isEmpty then
        { r2 with errorMessage := "No breathers meet minimum CFM." }
      else
        let rule4Result := applyRule4 candidates2 row cfg volumes []
        let candidates3 := rule4Result.1
        let r3 := { r2 with ruleTrace := r2.ruleTrace ++ rule4Result.2 }
        if candidates3.isEmpty then
          { r3 with errorMessage := "No breathers meet operational requirements." }
        else
          let rule5Result := applyRule5 candidates3 volumes "circulating"
          let candidates4 := rule5Result.1
          let r4 := { r3 with ruleTrace := r3.ruleTrace ++ [rule5Result.2] }
          if candidates4.isEmpty then
            { r4 with errorMessage := "No breathers meet sump volume requirements." }
          else
            let ctx : Ctx := { cfmRequired := cfmRequired, desiccantRequired := false,
                               vOil := vOil, systemType := "circulating" }
            match rankAndSelectBestBreather candidates4 ctx with
            | some selected =>
                let gpmAnalysis :=
                  match selected.maxFluidFlow with
                  | some breatherGpm =>
                      if assetGpm > 0 then some (breatherGpm / assetGpm, breatherGpm)
                      else none
                  | none => none
                { r4 with
                    selectedBreather := [selected],
                    lccBreather := selectLccBreather candidates4 ctx,
                    costBenefitBreather := selectCostBenefitBreather candidates4 ctx,
                    gpmAnalysis := gpmAnalysis,
                    success := true,
                    resultStatus := "Optimal",
                    installationNotes := "Direct installation recommended. Verify space constraints." }
            | none =>
                { r4 with errorMessage := "No suitable breather found after all rules." }

/-- `CirculatingSystemsDataProcessor._process_single_record`. -/
def circProcessSingleRecord (fullDataset : List (Nat × AssetRow))
    (breatherCatalog : List Breather) (row : AssetRow) (rowIndex : Nat)
    (finalConfig : Config) : CircResult :=
  let required := applyRule1 finalConfig
  let tr0 := [TraceStep.rule1 (finalConfig.criticality.getD "A") required]
  let r := { initialCircResult with ruleTrace := tr0 }
  if ¬required then
    { r with resultStatus := "No Breather Required", success := true }
  else
    let flow := calculateGpmAndCfm fullDataset row rowIndex finalConfig
    let r1 :=
      { r with flowAnalysis := some flow,
               ruleTrace := r.ruleTrace ++ [TraceStep.rule2Gpm flow.cfmRequired flow.totalFlow] }
    match circVolumesStep row with
    | Except.error e => { r1 with errorMessage := e }
    | Except.ok volumes => circSelectionPhase breatherCatalog row finalConfig flow volumes r1

/-- Per-asset override merge of the circulating `process_all_records`
(`dict.update`, modelled at present-key granularity). -/
def effectiveConfigCirc (globalConfig : Config) (overrides : List (Nat × Config))
    (idx : Nat) : Config :=
  match lookupAssoc overrides idx with
  | none => globalConfig
  | some p =>
      { criticality := p.criticality.orElse (fun _ => globalConfig.criticality),
        safetyFactor := p.safetyFactor.orElse (fun _ => globalConfig.safetyFactor),
        minAmbTemp := p.minAmbTemp.orElse (fun _ => globalConfig.minAmbTemp),
        maxAmbTemp := p.maxAmbTemp.orElse (fun _ => globalConfig.maxAmbTemp),
        mobileApplication := p.mobileApplication.orElse (fun _ => globalConfig.mobileApplication),
        highParticleRemoval := p.highParticleRemoval.orElse (fun _ => globalConfig.highParticleRemoval),
        esiManual := p.esiManual.orElse (fun _ => globalConfig.esiManual),
        enableManualGpm := p.enableManualGpm.orElse (fun _ => globalConfig.enableManualGpm),
        manualGpmOverride := p.manualGpmOverride.orElse (fun _ => globalConfig.manualGpmOverride),
        brandFilter := p.brandFilter.orElse (fun _ => globalConfig.brandFilter) }

/-- The result-accumulating loop of the circulating `process_all_records`. -/
def circProcessAllRecordsAux (fullDataset : List (Nat × AssetRow))
    (breatherCatalog : List Breather) (globalConfig : Config)
    (overrides : List (Nat × Config)) :
    List (Nat × AssetRow) → List (Nat × CircResult) → List (Nat × CircResult)
  | [], acc => acc.reverse
  | (idx, row) :: rest, acc =>
      let finalConfig := effectiveConfigCirc globalConfig overrides idx
      circProcessAllRecordsAux fullDataset breatherCatalog globalConfig overrides rest
        ((idx, circProcessSingleRecord fullDataset breatherCatalog row idx finalConfig) :: acc)

/-- `CirculatingSystemsDataProcessor.process_all_records`. -/
def circProcessAllRecords (fullDataset : List (Nat × AssetRow))
    (breatherCatalog : List Breather) (globalConfig : Config)
    (overrides : List (Nat × Config)) (dataToProcess : List (Nat × AssetRow)) :
    List (Nat × CircResult) :=
  circProcessAllRecordsAux fullDataset breatherCatalog globalConfig overrides dataToProcess []

/-- Spec-side reading of claim C8 step (d): fixed per-category flow
defaults keyed by the component-template text (turbine, hydraulic,
reservoir, other), as the relaxed-source analysis tab words them.  This is
the claimed behaviour, for comparison with `calculateGpmAndCfm`; it is not
part of the core circulating processor. -/
def claimedCategoryDefaultGpm (maintPoint : String) : ℚ :=
  let mp := lowerStr maintPoint
  if strContains mp "turbine" then 60
  else if strContains mp "hydraulic" then 40
  else if strContains mp "reservoir" then 35
  else 15

/-! ## Derived keys used in theorem statements -/

/-- The sump column actually resolved for a ranking context. -/
def resolvedSumpCol (ctx : Ctx) : String :=
  (findColumn catalogColumns (sumpColName ctx)).getD ""

/-- Sort key of `select_cost_benefit_breather` when sump data is used:
sump margin, CFM margin, adsorption — compared lexicographically, each
ascending. -/
def cbSortKey3 (ctx : Ctx) (b : Breather) : ℚ × ℚ × ℚ :=
  (sumpMargin ctx (resolvedSumpCol ctx) b, cfmMargin ctx b, adsorptionVal b)

/-- Sort key of `select_cost_benefit_breather` without sump data. -/
def cbSortKey2 (ctx : Ctx) (b : Breather) : ℚ × ℚ :=
  (cfmMargin ctx b, adsorptionVal b)

/-- Default splash ranking key of `_rank_and_select_best_breather` (CFM
margin, sump margin, adsorption descending). -/
def defaultSplashKey3 (ctx : Ctx) (b : Breather) : ℚ × ℚ × ℚ :=
  (cfmMargin ctx b, sumpMargin ctx (resolvedSumpCol ctx) b, -adsorptionVal b)

/-! ## Concrete fixtures for witnesses and counterexamples -/

/-- A benign disposable candidate. -/
def exBreatherX : Breather :=
  { brand := "B", model := "X", btype := "Disposable", maxAirFlow := some 2,
    maxFluidFlow := some 100, heightIn := some 5, diameterIn := some 4,
    adsorption := some 5, extendedService := false, mobileApps := false,
    highVibration := false, oilMistControl := false, rh25to75 := true,
    rhOver75 := false, wccLow := true, wccMedium := false, wccHigh := false,
    sumpVolMaxSplash := some 10, sumpVolMaxCirc := some 10 }

/-- A second disposable candidate: larger CFM margin, smaller sump margin,
larger adsorption than `exBreatherX`. -/
def exBreatherY : Breather :=
  { exBreatherX with model := "Y", maxAirFlow := some 3,
                     sumpVolMaxSplash := some 8, sumpVolMaxCirc := some 8,
                     adsorption := some 7 }

/-- A splash ranking context with one gallon of oil and one CFM required. -/
def exCtxSplash : Ctx :=
  { cfmRequired := 1, desiccantRequired := false, vOil := 1, systemType := "splash" }

/-- An asset row carrying both a declared oil capacity (10 L) and a full
positive dimension set (2 x 3 x 4 in, oil level 1 in). -/
def exRowBoth : AssetRow :=
  { dHeight := some 2, dWidth := some 3, dLength := some 4, dOilLevel := some 1,
    dOilCapacity := some 10, dOperatingTemp := "", dContaminantLikelihood := "Low",
    dWaterContact := "No Water Contact, Very Dry Conditions", dAvgHumidity := none,
    dOilMistEvidence := "", dVibration := "", dClearance := "", machine := "",
    maintPoint := "", dFlowRate := none, dFlowUnit := "" }

/-- The same row with only the declared capacity (no dimensions). -/
def exRowCapacityOnly : AssetRow :=
  { exRowBoth with dHeight := none, dWidth := none, dLength := none, dOilLevel := none }

/-- The same row with neither capacity nor dimensions. -/
def exRowNoData : AssetRow :=
  { exRowCapacityOnly with dOilCapacity := none }

/-- A circulating turbine-bearing row with no flow data, no pump siblings
and no declared oil capacity. -/
def exRowTurbine : AssetRow :=
  { exRowBoth with dHeight := none, dOilCapacity := none, machine := "M1",
                   maintPoint := "Turbine Bearing (Circulating)" }

/-- A pump sibling of machine M1 flowing 10 GPM. -/
def exRowPump : AssetRow :=
  { exRowBoth with machine := "M1", maintPoint := "Pump (Oil)",
                   dFlowRate := some 10, dFlowUnit := "gpm" }

/-- A baseline effective configuration (criticality A, defaults ambient). -/
def exCfgA : Config :=
  { criticality := some "A", safetyFactor := none, minAmbTemp := some 60,
    maxAmbTemp := some 80, mobileApplication := some false,
    highParticleRemoval := none, esiManual := none, enableManualGpm := none,
    manualGpmOverride := none, brandFilter := none }

/-- The same configuration with criticality C. -/
def exCfgC : Config := { exCfgA with criticality := some "C" }

/-- The same configuration with mobile use required. -/
def exCfgMobile : Config := { exCfgA with mobileApplication := some true }

/-- The same configuration with a manual flow override of 20 GPM enabled. -/
def exCfgManualGpm : Config :=
  { exCfgA with enableManualGpm := some true, manualGpmOverride := some 20 }

/-- The same configuration with safety factor 2 (ignored by the
circulating flow formula, which hard-codes 1.4). -/
def exCfgSafety2 : Config := { exCfgA with safetyFactor := some 2 }

/-- A successful thermal-analysis value requiring 1 CFM with zero volumes,
feeding the splash selection phase directly. -/
def exThermal : ThermalResult :=
  { success := true, errorMessage := "", cfmRequired := 1,
    volumes := some emptyVolumes, expansion := none }

/-- A circulating flow analysis requiring 1 CFM at zero asset GPM,
feeding the circulating selection phase directly. -/
def exFlow : FlowResult :=
  { cfmRequired := 1, totalFlow := 0, calculationMethod := FlowMethod.safetyMinimum }

/-! ## Helper lemmas -/

theorem mem_insertB {α : Type} (le : α → α → Bool) (x : α) (l : List α) (a : α) :
    a ∈ insertB le x l ↔ a = x ∨ a ∈ l := by
  induction l with
  | nil => simp [insertB]
  | cons y ys ih =>
      simp only [insertB]
      split
      · simp [List.mem_cons]
      · simp only [List.mem_cons, ih]
        tauto

theorem mem_sortB {α : Type} (le : α → α → Bool) (l : List α) (a : α) :
    a ∈ sortB le l ↔ a ∈ l := by
  induction l with
  | nil => simp [sortB]
  | cons x xs ih => simp [sortB, mem_insertB, ih]

theorem sortB_head_min {α : Type} (le : α → α → Bool)
    (htotal : ∀ a b, le a b = true ∨ le b a = true)
    (htrans : ∀ a b c, le a b = true → le b c = true → le a c = true) :
    ∀ (l : List α) (b : α) (rest : List α), sortB le l = b :: rest →
      ∀ a ∈ l, le b a = true := by
  have hrefl : ∀ a, le a a = true := fun a => (htotal a a).elim id id
  intro l
  induction l with
  | nil => intro b rest h; simp [sortB] at h
  | cons x xs ih =>
      intro b rest h a ha
      rw [sortB] at h
      rcases hs : sortB le xs with _ | ⟨y, ys⟩
      · rw [hs] at h
        simp only [insertB] at h
        injection h with h1 h2
        subst h1
        rcases List.mem_cons.mp ha with rfl | hxs
        · exact hrefl _
        · exfalso
          have hmem : a ∈ sortB le xs := (mem_sortB le xs a).mpr hxs
          rw [hs] at hmem
          simp at hmem
      · rw [hs] at h
        simp only [insertB] at h
        by_cases hxy : le x y = true
        · rw [if_pos hxy] at h
          injection h with h1 h2
          subst h1
          rcases List.mem_cons.mp ha with rfl | hxs
          · exact hrefl _
          · exact htrans _ y a hxy (ih y ys hs a hxs)
        · rw [if_neg hxy] at h
          injection h with h1 h2
          subst h1
          rcases List.mem_cons.mp ha with rfl | hxs
          · rcases htotal a y with hay | hya
            · exact absurd hay hxy
            · exact hya
          · exact ih _ ys hs a hxs

theorem sortB_head_mem {α : Type} (le : α → α → Bool) (l : List α) (b : α)
    (h : (sortB le l).head? = some b) : b ∈ l := by
  rcases hs : sortB le l with _ | ⟨x, xs⟩
  · rw [hs] at h; simp at h
  · rw [hs] at h
    simp only [List.head?] at h
    cases h
    exact (mem_sortB le l b).mp (by rw [hs]; exact List.mem_cons_self b xs)

theorem lexLe2_total (x y : ℚ × ℚ) : lexLe2 x y = true ∨ lexLe2 y x = true := by
  unfold lexLe2
  rcases lt_trichotomy x.1 y.1 with h | h | h
  · left; simp [h]
  · rcases le_total x.2 y.2 with h2 | h2
    · left; simp [h, lt_irrefl, h2]
    · right; simp [h, lt_irrefl, h2]
  · right; simp [h]

theorem lexLe2_trans (x y z : ℚ × ℚ) (h1 : lexLe2 x y = true) (h2 : lexLe2 y z = true) :
    lexLe2 x z = true := by
  unfold lexLe2 at *
  split_ifs at * with hxy hyx hyz hzy hxz hzx <;>
    first
      | rfl
      | (exfalso; simp only [decide_eq_true_eq] at *; linarith)
      | (simp only [decide_eq_true_eq] at *; linarith)

theorem lexLe3_total (x y : ℚ × ℚ × ℚ) : lexLe3 x y = true ∨ lexLe3 y x = true := by
  unfold lexLe3
  rcases lt_trichotomy x.1 y.1 with h | h | h
  · left; simp [h]
  · rcases lexLe2_total x.2 y.2 with h2 | h2
    · left; simp [h, lt_irrefl, h2]
    · right; simp [h, lt_irrefl, h2]
  · right; simp [h]

theorem lexLe3_trans (x y z : ℚ × ℚ × ℚ) (h1 : lexLe3 x y = true) (h2 : lexLe3 y z = true) :
    lexLe3 x z = true := by
  unfold lexLe3 at *
  split_ifs at * with hxy hyx hyz hzy hxz hzx <;>
    first
      | rfl
      | exact lexLe2_trans _ _ _ h1 h2
      | (exfalso; linarith)

theorem mem_inclusiveKeep {orig kept : List Breather}
    (h : ∀ b ∈ kept, b ∈ orig) (b : Breather) (hb : b ∈ inclusiveKeep orig kept) :
    b ∈ orig := by
  unfold inclusiveKeep at hb
  split at hb
  · exact hb
  · exact h b hb

theorem mem_inclusiveKeep_filter {bs : List Breather} {p : Breather → Bool}
    (b : Breather) (hb : b ∈ inclusiveKeep bs (bs.filter p)) : b ∈ bs :=
  mem_inclusiveKeep (fun _ hx => (List.mem_filter.mp hx).1) b hb

theorem applyWcciFilter_subset (bs : List Breather) (f : String) :
    ∀ b ∈ (applyWcciFilter bs f).breathers, b ∈ bs := by
  intro b hb
  unfold applyWcciFilter at hb
  rcases hcol : (lookupAssoc wcciColMap f).bind (findColumn catalogColumns) with _ | col <;>
    rw [hcol] at hb
  · exact hb
  · exact mem_inclusiveKeep_filter b hb

theorem applyDesiccantFilter_subset (bs : List Breather) (d : Bool) :
    ∀ b ∈ (applyDesiccantFilter bs d).breathers, b ∈ bs := by
  intro b hb; exact hb

theorem applyExtendedServiceFilter_subset (bs : List Breather) (esi : String) :
    ∀ b ∈ (applyExtendedServiceFilter bs esi).breathers, b ∈ bs := by
  intro b hb
  unfold applyExtendedServiceFilter at hb
  rcases hcol : findColumn catalogColumns "extended service" with _ | col <;>
    rw [hcol] at hb
  · exact hb
  · dsimp only at hb
    split at hb <;> exact mem_inclusiveKeep_filter b hb

theorem applyHumidityFilter_subset (bs : List Breather) (hl : String) (ah : ℚ) :
    ∀ b ∈ (applyHumidityFilter bs hl ah).breathers, b ∈ bs := by
  intro b hb
  unfold applyHumidityFilter at hb
  rcases hcol : findColumn catalogColumns (if hl = "High" then "rh >75%" else "rh 25 to 75")
      with _ | col <;>
    rw [hcol] at hb
  · exact hb
  · exact mem_inclusiveKeep_filter b hb

theorem applyContaminationFilter_subset (bs : List Breather) (ci : String) (pr : Bool) :
    ∀ b ∈ (applyContaminationFilter bs ci pr).breathers, b ∈ bs := by
  intro b hb
  unfold applyContaminationFilter at hb
  split at hb
  · exact hb
  · rcases hcol : findColumn catalogColumns "extended service" with _ | col <;>
      rw [hcol] at hb
    · exact hb
    · exact mem_inclusiveKeep_filter b hb

theorem applyOilMistFilter_subset (bs : List Breather) (om : Bool) :
    ∀ b ∈ (applyOilMistFilter bs om).breathers, b ∈ bs := by
  intro b hb
  unfold applyOilMistFilter at hb
  rcases hcol : findColumn catalogColumns "integrated oil mist control" with _ | col <;>
    rw [hcol] at hb
  · exact hb
  · dsimp only at hb
    split at hb <;> exact mem_inclusiveKeep_filter b hb

theorem applyVibrationFilter_subset (bs : List Breather) (v : String) :
    ∀ b ∈ (applyVibrationFilter bs v).breathers, b ∈ bs := by
  intro b hb
  unfold applyVibrationFilter at hb
  rcases hcol : findColumn catalogColumns "high vibration" with _ | col <;>
    rw [hcol] at hb
  · exact hb
  · dsimp only at hb
    split at hb <;> exact mem_inclusiveKeep_filter b hb

theorem applyMobileFilter_subset (bs : List Breather) (m : Bool) :
    ∀ b ∈ (applyMobileFilter bs m).breathers, b ∈ bs := by
  intro b hb
  unfold applyMobileFilter at hb
  rcases hcol : findColumn catalogColumns "mobile applications" with _ | col <;>
    rw [hcol] at hb
  · exact hb
  · dsimp only at hb
    split at hb
    · exact mem_inclusiveKeep_filter b hb
    · exact (List.mem_filter.mp hb).1

theorem rule4FilterMap_subset (factors : Factors) :
    ∀ p ∈ rule4FilterMap factors, ∀ (bs : List Breather) (b : Breather),
      b ∈ (p.2 bs).breathers → b ∈ bs := by
  intro p hp bs b hb
  simp only [rule4FilterMap, List.mem_cons, List.mem_singleton] at hp
  rcases hp with rfl | rfl | rfl | rfl | rfl | rfl | rfl | h
  · exact applyWcciFilter_subset bs factors.wcci b hb
  · exact applyDesiccantFilter_subset bs factors.desiccantRequired b hb
  · exact applyExtendedServiceFilter_subset bs factors.esi b hb
  · exact applyHumidityFilter_subset bs factors.humidityLevel factors.avgHumidity b hb
  · exact applyContaminationFilter_subset bs factors.ci factors.particleFilterRequired b hb
  · exact applyOilMistFilter_subset bs factors.oilMistEvidence b hb
  · exact applyVibrationFilter_subset bs factors.vibration b hb
  · simp at h
theorem runFilters_subset (exclude : List String) :
    ∀ (fs : List (String × (List Breather → FilterResult))),
      (∀ p ∈ fs, ∀ (bs : List Breather) (b : Breather), b ∈ (p.2 bs).breathers → b ∈ bs) →
      ∀ (bs : List Breather) (b : Breather), b ∈ (runFilters exclude fs bs).1 → b ∈ bs := by
  intro fs
  induction fs with
  | nil => intro _ bs b hb; exact hb
  | cons p rest ih =>
      intro hall bs b hb
      obtain ⟨name, f⟩ := p
      rw [runFilters] at hb
      split at hb
      · exact ih (fun q hq => hall q (List.mem_cons_of_mem _ hq)) bs b hb
      · dsimp only at hb
        split at hb
        · exact hall (name, f) (List.mem_cons_self _ _) bs b hb
        · have h1 : b ∈ (f bs).breathers :=
            ih (fun q hq => hall q (List.mem_cons_of_mem _ hq)) (f bs).breathers b hb
          exact hall (name, f) (List.mem_cons_self _ _) bs b h1

theorem applyRule4_subset (bs : List Breather) (row : AssetRow) (cfg : Config)
    (volumes : Volumes) (exclude : List String) :
    ∀ b ∈ (applyRule4 bs row cfg volumes exclude).1, b ∈ bs := by
  intro b hb
  unfold applyRule4 at hb
  dsimp only at hb
  have hchain : ∀ p ∈ (if volumes.vSump < 15 then
      ((rule4FilterMap (extractOperationalFactors row cfg)).filter (fun p => p.1 ≠ "oil_mist"),
       [TraceStep.oilMistSkippedSmallSump volumes.vSump])
    else (rule4FilterMap (extractOperationalFactors row cfg), ([] : List TraceStep))).1,
      ∀ (bs' : List Breather) (b' : Breather), b' ∈ (p.2 bs').breathers → b' ∈ bs' := by
    split
    · intro p hp
      exact rule4FilterMap_subset _ p (List.mem_filter.mp hp).1
    · intro p hp
      exact rule4FilterMap_subset _ p hp
  have hmob : ∀ b' ∈ (if (extractOperationalFactors row cfg).mobileApplication ∧
      ¬(exclude.contains "mobile") then
        ((applyMobileFilter bs (extractOperationalFactors row cfg).mobileApplication).breathers,
         [(applyMobileFilter bs (extractOperationalFactors row cfg).mobileApplication).trace])
      else (bs, ([] : List TraceStep))).1, b' ∈ bs := by
    split
    · intro b' hb'
      exact applyMobileFilter_subset bs _ b' hb'
    · intro b' hb'
      exact hb'
  exact hmob b (runFilters_subset exclude _ hchain _ b hb)

theorem runFallbackAttemptsAux_subset (initial : List Breather) (row : AssetRow)
    (cfg : Config) (volumes : Volumes) :
    ∀ (attempts : List (List String)) (bs : List Breather) (cs : List String),
      runFallbackAttemptsAux initial row cfg volumes attempts = some (bs, cs) →
      ∀ b ∈ bs, b ∈ initial := by
  intro attempts
  induction attempts with
  | nil => intro bs cs h; simp [runFallbackAttemptsAux] at h
  | cons c rest ih =>
      intro bs cs h b hb
      rw [runFallbackAttemptsAux] at h
      split at h
      · exact ih bs cs h b hb
      · injection h with h1
        obtain ⟨h2, _⟩ := Prod.mk.injEq .. ▸ h1
        exact applyRule4_subset initial row cfg volumes c b (h2 ▸ hb)

theorem runFallbackAttempts_subset (initial : List Breather) (row : AssetRow)
    (cfg : Config) (volumes : Volumes) (bs : List Breather) (cs : List String)
    (h : runFallbackAttempts initial row cfg volumes = some (bs, cs)) :
    ∀ b ∈ bs, b ∈ initial :=
  runFallbackAttemptsAux_subset initial row cfg volumes fallbackAttempts bs cs h

theorem applyRule5_subset (bs : List Breather) (volumes : Volumes) (st : String) :
    ∀ b ∈ (applyRule5 bs volumes st).1, b ∈ bs := by
  intro b hb
  unfold applyRule5 at hb
  dsimp only at hb
  split at hb
  · exact hb
  · rcases hcol : findColumn catalogColumns
        (if st = "circulating" then "circulating/hyd sump volume max gal."
         else "sump volume max gal") with _ | col <;>
      rw [hcol] at hb
    · exact hb
    · dsimp only at hb
      split at hb
      · exact hb
      · exact (List.mem_filter.mp hb).1

theorem applyRule6_subset (bs : List Breather) (space : Space) :
    (∀ b ∈ (applyRule6 bs space).1, b ∈ bs) ∧
    (∀ b ∈ (applyRule6 bs space).2.1, b ∈ bs) := by
  unfold applyRule6
  split
  · constructor
    · intro b hb; exact hb
    · intro b hb; simp at hb
  · constructor
    · intro b hb; exact (List.mem_filter.mp hb).1
    · intro b hb; exact (List.mem_filter.mp hb).1

theorem applyRule3_mem (catalog : List Breather) (cfm : ℚ) (b : Breather)
    (hb : b ∈ applyRule3 catalog cfm) :
    b ∈ catalog ∧ ∃ v, b.maxAirFlow = some v ∧ v ≥ cfm := by
  unfold applyRule3 at hb
  rw [if_pos (by decide)] at hb
  obtain ⟨hmem, hp⟩ := List.mem_filter.mp hb
  refine ⟨hmem, ?_⟩
  rcases hmax : b.maxAirFlow with _ | v
  · rw [hmax] at hp; simp [Option.any] at hp
  · rw [hmax] at hp
    simp only [Option.any, decide_eq_true_eq] at hp
    exact ⟨v, rfl, hp⟩

theorem rankAndSelectBestBreather_mem (candidates : List Breather) (ctx : Ctx)
    (b : Breather) (h : rankAndSelectBestBreather candidates ctx = some b) :
    b ∈ candidates := by
  unfold rankAndSelectBestBreather at h
  split at h
  · exact absurd h (by simp)
  · split at h
    · split at h
      · split at h
        · exact sortB_head_mem _ candidates b h
        · exact sortB_head_mem _ candidates b h
      · exact sortB_head_mem _ candidates b h
    · exact sortB_head_mem _ candidates b h

theorem selectLccBreather_mem (allCandidates : List Breather) (ctx : Ctx)
    (b : Breather) (h : selectLccBreather allCandidates ctx = some b) :
    b ∈ allCandidates := by
  unfold selectLccBreather at h
  split at h
  · exact absurd h (by simp)
  · dsimp only at h
    split at h
    · exact (List.mem_filter.mp (sortB_head_mem _ _ b h)).1
    · split at h
      · exact (List.mem_filter.mp (sortB_head_mem _ _ b h)).1
      · exact sortB_head_mem _ allCandidates b h

theorem selectCostBenefitBreather_mem (allCandidates : List Breather) (ctx : Ctx)
    (b : Breather) (h : selectCostBenefitBreather allCandidates ctx = some b) :
    b ∈ allCandidates ∧ containsCI b.btype "Disposable" = true := by
  unfold selectCostBenefitBreather at h
  split at h
  · exact absurd h (by simp)
  · dsimp only at h
    split at h
    · exact absurd h (by simp)
    · have hd : b ∈ allCandidates.filter (fun x => containsCI x.btype "Disposable") := by
        split at h
        · split at h
          · exact sortB_head_mem _ _ b h
          · exact sortB_head_mem _ _ b h
        · exact sortB_head_mem _ _ b h
      obtain ⟨h1, h2⟩ := List.mem_filter.mp hd
      exact ⟨h1, h2⟩

theorem getCriticalARecommendation_subset (fit nofit : List Breather) (ctx : Ctx) :
    ∀ b ∈ (getCriticalARecommendation fit nofit ctx).selectedBreather,
      b ∈ fit ++ nofit := by
  intro b hb
  unfold getCriticalARecommendation at hb
  dsimp only at hb
  split at hb
  · simp [noSolutionResult] at hb
  · split at hb
    · simp [noSolutionResult] at hb
    · simp only [List.mem_append] at hb
      rcases hb with hb | hb
      · split at hb
        · rcases List.mem_singleton.mp hb with rfl
          have := rankAndSelectBestBreather_mem _ ctx b (by assumption)
          exact (List.mem_filter.mp this).1
        · simp at hb
      · split at hb
        · split at hb
          · simp at hb
          · rcases List.mem_singleton.mp hb with rfl
            have := rankAndSelectBestBreather_mem _ ctx b (by assumption)
            exact (List.mem_filter.mp this).1
        · simp at hb

theorem getStandardRecommendation_subset (fit nofit : List Breather)
    (sp : Bool) (ctx : Ctx) :
    ∀ b ∈ (getStandardRecommendation fit nofit sp ctx).selectedBreather,
      b ∈ fit ++ nofit := by
  intro b hb
  unfold getStandardRecommendation at hb
  dsimp only at hb
  split at hb
  · split at hb
    · split at hb
      · rcases List.mem_singleton.mp hb with rfl
        exact List.mem_append.mpr (Or.inl (rankAndSelectBestBreather_mem fit ctx b (by assumption)))
      · simp [noSolutionResult] at hb
    · split at hb
      · split at hb
        · rcases List.mem_singleton.mp hb with rfl
          exact List.mem_append.mpr (Or.inr (rankAndSelectBestBreather_mem nofit ctx b (by assumption)))
        · simp [noSolutionResult] at hb
      · simp [noSolutionResult] at hb
  · split at hb
    · split at hb
      · rcases List.mem_singleton.mp hb with rfl
        exact rankAndSelectBestBreather_mem (fit ++ nofit) ctx b (by assumption)
      · simp [noSolutionResult] at hb
    · simp [noSolutionResult] at hb

theorem applyRule7_subset (fit nofit : List Breather) (space : Space) (sp : Bool)
    (cfg : Config) (note : Option (List String)) (ctx : Ctx) :
    ∀ b ∈ (applyRule7 fit nofit space sp cfg note ctx).selectedBreather,
      b ∈ fit ++ nofit := by
  intro b hb
  unfold applyRule7 at hb
  dsimp only at hb
  split at hb
  · exact getCriticalARecommendation_subset fit nofit ctx b hb
  · exact getStandardRecommendation_subset fit nofit sp ctx b hb

theorem splashAfterFallback_subset (initial : List Breather) (row : AssetRow)
    (cfg : Config) (volumes : Volumes) :
    ∀ b ∈ (splashAfterFallback initial row cfg volumes).1, b ∈ initial := by
  intro b hb
  unfold splashAfterFallback at hb
  split at hb
  · split at hb
    · dsimp only at hb
      exact runFallbackAttempts_subset initial row cfg volumes _ _ (by assumption) b hb
    · simp at hb
  · exact applyRule4_subset initial row cfg volumes [] b hb

theorem splashSelectionPhase_mem (catalog : List Breather) (row : AssetRow) (cfg : Config)
    (thermal : ThermalResult) (tr0 : List TraceStep) (b : Breather)
    (hb : b ∈ (splashSelectionPhase catalog row cfg thermal tr0).selectedBreather ∨
          (splashSelectionPhase catalog row cfg thermal tr0).lccBreather = some b ∨
          (splashSelectionPhase catalog row cfg thermal tr0).costBenefitBreather = some b) :
    b ∈ applyRule3 catalog thermal.cfmRequired := by
  unfold splashSelectionPhase at hb
  dsimp only at hb
  split at hb
  · simp [updateResultWithError, initialSplashResult] at hb
  · split at hb
    · simp [updateResultWithError, initialSplashResult] at hb
    · split at hb
      · simp [updateResultWithError, initialSplashResult] at hb
      · simp only [updateResultWithError, initialSplashResult] at hb
        have hchain : ∀ b',
            b' ∈ (applyRule6 (applyRule5
                (splashAfterFallback (applyRule3 catalog thermal.cfmRequired) row cfg
                  (thermal.volumes.getD emptyVolumes)).1
                (thermal.volumes.getD emptyVolumes) "splash").1
                (parseAvailableSpace row.dClearance)).1 ++
              (applyRule6 (applyRule5
                (splashAfterFallback (applyRule3 catalog thermal.cfmRequired) row cfg
                  (thermal.volumes.getD emptyVolumes)).1
                (thermal.volumes.getD emptyVolumes) "splash").1
                (parseAvailableSpace row.dClearance)).2.1 →
            b' ∈ applyRule3 catalog thermal.cfmRequired := by
          intro b' hb'
          have h5 : b' ∈ (applyRule5
              (splashAfterFallback (applyRule3 catalog thermal.cfmRequired) row cfg
                (thermal.volumes.getD emptyVolumes)).1
              (thermal.volumes.getD emptyVolumes) "splash").1 := by
            rcases List.mem_append.mp hb' with h6 | h6
            · exact (applyRule6_subset _ _).1 b' h6
            · exact (applyRule6_subset _ _).2 b' h6
          exact splashAfterFallback_subset _ row cfg _ b'
            (applyRule5_subset _ _ _ b' h5)
        rcases hb with hb | hb | hb
        · exact hchain b (applyRule7_subset _ _ _ _ _ _ _ b hb)
        · exact hchain b (selectLccBreather_mem _ _ b hb)
        · exact hchain b (selectCostBenefitBreather_mem _ _ b hb).1

theorem circSelectionPhase_mem (catalog : List Breather) (row : AssetRow) (cfg : Config)
    (flow : FlowResult) (volumes : Volumes) (r0 : CircResult)
    (h0sel : r0.selectedBreather = []) (h0lcc : r0.lccBreather = none)
    (h0cb : r0.costBenefitBreather = none) (b : Breather)
    (hb : b ∈ (circSelectionPhase catalog row cfg flow volumes r0).selectedBreather ∨
          (circSelectionPhase catalog row cfg flow volumes r0).lccBreather = some b ∨
          (circSelectionPhase catalog row cfg flow volumes r0).costBenefitBreather = some b) :
    ∃ v, b.maxAirFlow = some v ∧ v ≥ flow.cfmRequired := by
  unfold circSelectionPhase at hb
  dsimp only at hb
  split at hb
  · simp [h0sel, h0lcc, h0cb] at hb
  · split at hb
    · simp [h0sel, h0lcc, h0cb] at hb
    · split at hb
      · simp [h0sel, h0lcc, h0cb] at hb
      · split at hb
        · simp [h0sel, h0lcc, h0cb] at hb
        · split at hb
          · simp [h0sel, h0lcc, h0cb] at hb
          · split at hb
            · dsimp only at hb
              have hmem : b ∈ applyRule3
                  (catalog.filter (fun x => x.maxFluidFlow.any (fun v => v ≥ flow.totalFlow)))
                  flow.cfmRequired := by
                rcases hb with hb | hb | hb
                · rcases List.mem_singleton.mp hb with rfl
                  exact applyRule4_subset _ row cfg volumes [] b
                    (applyRule5_subset _ volumes "circulating" b
                      (rankAndSelectBestBreather_mem _ _ b (by assumption)))
                · exact applyRule4_subset _ row cfg volumes [] b
                    (applyRule5_subset _ volumes "circulating" b
                      (selectLccBreather_mem _ _ b hb))
                · exact applyRule4_subset _ row cfg volumes [] b
                    (applyRule5_subset _ volumes "circulating" b
                      (selectCostBenefitBreather_mem _ _ b hb).1)
              exact (applyRule3_mem _ _ b hmem).2
            · simp [h0sel, h0lcc, h0cb] at hb

theorem listMinQ_spec : ∀ (l : List ℚ) (m : ℚ), listMinQ l = some m →
    m ∈ l ∧ ∀ t ∈ l, m ≤ t := by
  intro l
  induction l with
  | nil => intro m h; simp [listMinQ] at h
  | cons x xs ih =>
      intro m h
      rw [listMinQ] at h
      injection h with h1
      rcases hxs : listMinQ xs with _ | m2
      · rw [hxs] at h1
        subst h1
        constructor
        · exact List.mem_cons_self _ _
        · intro t ht
          rcases List.mem_cons.mp ht with rfl | htx
          · exact le_refl t
          · exfalso
            rcases xs with _ | ⟨y, ys⟩
            · simp at htx
            · simp [listMinQ] at hxs
      · rw [hxs] at h1
        dsimp only at h1
        subst h1
        obtain ⟨hm2, hle⟩ := ih m2 hxs
        constructor
        · rcases le_total x m2 with hc | hc
          · simp [min_eq_left hc]
          · rw [min_eq_right hc]
            exact List.mem_cons_of_mem x hm2
        · intro t ht
          rcases List.mem_cons.mp ht with rfl | htx
          · exact min_le_left _ _
          · exact le_trans (min_le_right x m2) (hle t htx)

theorem listMaxQ_spec : ∀ (l : List ℚ) (m : ℚ), listMaxQ l = some m →
    m ∈ l ∧ ∀ t ∈ l, t ≤ m := by
  intro l
  induction l with
  | nil => intro m h; simp [listMaxQ] at h
  | cons x xs ih =>
      intro m h
      rw [listMaxQ] at h
      injection h with h1
      rcases hxs : listMaxQ xs with _ | m2
      · rw [hxs] at h1
        subst h1
        constructor
        · exact List.mem_cons_self _ _
        · intro t ht
          rcases List.mem_cons.mp ht with rfl | htx
          · exact le_refl t
          · exfalso
            rcases xs with _ | ⟨y, ys⟩
            · simp at htx
            · simp [listMaxQ] at hxs
      · rw [hxs] at h1
        dsimp only at h1
        subst h1
        obtain ⟨hm2, hle⟩ := ih m2 hxs
        constructor
        · rcases le_total x m2 with hc | hc
          · rw [max_eq_right hc]
            exact List.mem_cons_of_mem x hm2
          · simp [max_eq_left hc]
        · intro t ht
          rcases List.mem_cons.mp ht with rfl | htx
          · exact le_max_left _ _
          · exact le_trans (hle t htx) (le_max_right x m2)

theorem listMinQ_isSome (l : List ℚ) (h : l ≠ []) : ∃ m, listMinQ l = some m := by
  rcases l with _ | ⟨x, xs⟩
  · exact absurd rfl h
  · exact ⟨_, rfl⟩

theorem listMaxQ_isSome (l : List ℚ) (h : l ≠ []) : ∃ m, listMaxQ l = some m := by
  rcases l with _ | ⟨x, xs⟩
  · exact absurd rfl h
  · exact ⟨_, rfl⟩

theorem processAllRecordsAux_spec (catalog : List Breather) (g : Config)
    (ovr : List (Nat × Config)) :
    ∀ (l : List (Nat × AssetRow)) (acc : List (Nat × SplashResult)),
      processAllRecordsAux catalog g ovr l acc =
        acc.reverse ++ l.map (fun p =>
          (p.1, processSingleRecord catalog p.2 (effectiveConfigSplash g ovr p.1))) := by
  intro l
  induction l with
  | nil => intro acc; simp [processAllRecordsAux]
  | cons p rest ih =>
      intro acc
      obtain ⟨idx, row⟩ := p
      rw [processAllRecordsAux]
      rw [ih]
      simp

theorem circProcessAllRecordsAux_spec (dataset : List (Nat × AssetRow))
    (catalog : List Breather) (g : Config) (ovr : List (Nat × Config)) :
    ∀ (l : List (Nat × AssetRow)) (acc : List (Nat × CircResult)),
      circProcessAllRecordsAux dataset catalog g ovr l acc =
        acc.reverse ++ l.map (fun p =>
          (p.1, circProcessSingleRecord dataset catalog p.2 p.1
            (effectiveConfigCirc g ovr p.1))) := by
  intro l
  induction l with
  | nil => intro acc; simp [circProcessAllRecordsAux]
  | cons p rest ih =>
      intro acc
      obtain ⟨idx, row⟩ := p
      rw [circProcessAllRecordsAux]
      rw [ih]
      simp

/-- Claim C10: per-asset processing is deterministic.  Both batch loops are
equal to a pure per-record map: each asset's result is a function of the
catalog, the asset row and its effective configuration alone (the loop
accumulator and the order of other records do not influence it), so any
two runs over identical inputs produce identical result lists, element for
element and in the same order. -/
theorem claim_C10 :
    (∀ (catalog : List Breather) (g : Config) (ovr : List (Nat × Config))
       (rows : List (Nat × AssetRow)),
       processAllRecords catalog g ovr rows =
         rows.map (fun p =>
           (p.1, processSingleRecord catalog p.2 (effectiveConfigSplash g ovr p.1)))) ∧
    (∀ (dataset : List (Nat × AssetRow)) (catalog : List Breather) (g : Config)
       (ovr : List (Nat × Config)) (rows : List (Nat × AssetRow)),
       circProcessAllRecords dataset catalog g ovr rows =
         rows.map (fun p =>
           (p.1, circProcessSingleRecord dataset catalog p.2 p.1
             (effectiveConfigCirc g ovr p.1)))) := by
  constructor
  · intro catalog g ovr rows
    unfold processAllRecords
    rw [processAllRecordsAux_spec]
    simp
  · intro dataset catalog g ovr rows
    unfold circProcessAllRecords
    rw [circProcessAllRecordsAux_spec]
    simp

/-- Claim C1: for assets whose effective criticality requires a breather
(A, B1 or B2) and a non-empty catalog, both core pipelines pass an
unsupported `system_type` keyword to the thermal calculator, so the call
raises `TypeError`, which each processor converts into an error result —
splash: status `No Solution Found`, circulating: status `Failed` — with
`success = false` and no selected, LCC or cost-benefit breather. -/
theorem claim_C1 (catalog : List Breather) (row : AssetRow) (cfg : Config)
    (dataset : List (Nat × AssetRow)) (idx : Nat)
    (hcrit : cfg.criticality.getD "A" = "A" ∨ cfg.criticality.getD "A" = "B1" ∨
             cfg.criticality.getD "A" = "B2")
    (hcat : catalog ≠ []) :
    ((processSingleRecord catalog row cfg).success = false ∧
     (processSingleRecord catalog row cfg).selectedBreather = [] ∧
     (processSingleRecord catalog row cfg).resultStatus = "No Solution Found" ∧
     (processSingleRecord catalog row cfg).lccBreather = none ∧
     (processSingleRecord catalog row cfg).costBenefitBreather = none) ∧
    ((circProcessSingleRecord dataset catalog row idx cfg).success = false ∧
     (circProcessSingleRecord dataset catalog row idx cfg).selectedBreather = [] ∧
     (circProcessSingleRecord dataset catalog row idx cfg).resultStatus = "Failed" ∧
     (circProcessSingleRecord dataset catalog row idx cfg).lccBreather = none ∧
     (circProcessSingleRecord dataset catalog row idx cfg).costBenefitBreather = none) := by
  have hreq : applyRule1 cfg = true := by
    unfold applyRule1
    rcases hcrit with h | h | h <;> simp [h]
  have hempty : catalog.isEmpty = false := by
    rcases catalog with _ | ⟨b, bs⟩
    · exact absurd rfl hcat
    · rfl
  constructor
  · unfold processSingleRecord
    rw [hempty]
    dsimp only
    rw [hreq]
    simp [splashThermalStep, pythonCallOk, calcCompleteThermalAnalysisParams,
          updateResultWithError, initialSplashResult]
  · unfold circProcessSingleRecord
    dsimp only
    rw [hreq]
    simp [circVolumesStep, pythonCallOk, calculateVolumesParams, initialCircResult]

/-- Witness for claim C1 at a concrete catalog, row and criticality-A
configuration. -/
theorem claim_C1_witness :
    (exCfgA.criticality.getD "A" = "A" ∧ [exBreatherX] ≠ ([] : List Breather)) ∧
    (((processSingleRecord [exBreatherX] exRowBoth exCfgA).success = false ∧
      (processSingleRecord [exBreatherX] exRowBoth exCfgA).selectedBreather = [] ∧
      (processSingleRecord [exBreatherX] exRowBoth exCfgA).resultStatus = "No Solution Found" ∧
      (processSingleRecord [exBreatherX] exRowBoth exCfgA).lccBreather = none ∧
      (processSingleRecord [exBreatherX] exRowBoth exCfgA).costBenefitBreather = none) ∧
     ((circProcessSingleRecord [] [exBreatherX] exRowBoth 0 exCfgA).success = false ∧
      (circProcessSingleRecord [] [exBreatherX] exRowBoth 0 exCfgA).selectedBreather = [] ∧
      (circProcessSingleRecord [] [exBreatherX] exRowBoth 0 exCfgA).resultStatus = "Failed" ∧
      (circProcessSingleRecord [] [exBreatherX] exRowBoth 0 exCfgA).lccBreather = none ∧
      (circProcessSingleRecord [] [exBreatherX] exRowBoth 0 exCfgA).costBenefitBreather = none)) :=
  ⟨⟨by decide, by decide⟩,
   claim_C1 [exBreatherX] exRowBoth exCfgA [] 0 (Or.inl (by decide)) (by decide)⟩

/-- Counterexample to claim C2 as stated: a row carrying both a positive
declared oil capacity (10 L) and a full positive dimension set is computed
by the dimension product, not from the declared capacity — the code is
dimensions-first, not capacity-first. -/
theorem claim_C2_counterexample :
    hasFullDimensionalData exRowBoth = true ∧
    exRowBoth.dOilCapacity = some 10 ∧
    (calculateVolumes exRowBoth).calculationMethod = "dimensions" ∧
    (calculateVolumes exRowBoth).vOil ≠ (10 : ℚ) * litersToGallons := by
  refine ⟨by decide, by decide, by decide, ?_⟩
  have h1 : (calculateVolumes exRowBoth).vOil = 1 * 3 * 4 * inchesCubedToGallons := by
    unfold calculateVolumes
    rw [if_pos (by decide)]
    rfl
  rw [h1]
  norm_num [inchesCubedToGallons, litersToGallons]

/-- Claim C2 (amended): the volume calculation is dimensions-first: when
all four dimensions are present and positive the volumes come from the
dimension product (with the capacity cross-check warning); the declared
oil capacity is used only when the dimension set is incomplete; and with
neither, the result is `insufficient_data` with zero volumes. -/
theorem claim_C2 (row : AssetRow) :
    (hasFullDimensionalData row = true →
      calculateVolumes row =
        { vSump := convertToInches row.dHeight * convertToInches row.dWidth *
                     convertToInches row.dLength * inchesCubedToGallons,
          vOil := convertToInches row.dOilLevel * convertToInches row.dWidth *
                    convertToInches row.dLength * inchesCubedToGallons,
          vAir := max (convertToInches row.dHeight * convertToInches row.dWidth *
                         convertToInches row.dLength * inchesCubedToGallons -
                       convertToInches row.dOilLevel * convertToInches row.dWidth *
                         convertToInches row.dLength * inchesCubedToGallons) 0,
          calculationMethod := "dimensions",
          volumeWarning := performSanityCheck row
            (convertToInches row.dOilLevel * convertToInches row.dWidth *
               convertToInches row.dLength * inchesCubedToGallons) }) ∧
    (hasFullDimensionalData row = false → hasOilCapacity row = true →
      calculateVolumes row =
        { vSump := row.dOilCapacity.getD 0 * litersToGallons / defaultOilPercentage,
          vOil := row.dOilCapacity.getD 0 * litersToGallons,
          vAir := row.dOilCapacity.getD 0 * litersToGallons / defaultOilPercentage -
                    row.dOilCapacity.getD 0 * litersToGallons,
          calculationMethod := "oil_capacity", volumeWarning := "" }) ∧
    (hasFullDimensionalData row = false → hasOilCapacity row = false →
      calculateVolumes row =
        { vSump := 0, vOil := 0, vAir := 0,
          calculationMethod := "insufficient_data",
          volumeWarning := "Insufficient data for volume calculation - no dimensions or oil capacity" }) := by
  refine ⟨?_, ?_, ?_⟩
  · intro hdim
    unfold calculateVolumes
    rw [hdim]
    rfl
  · intro hdim hcap
    unfold calculateVolumes
    rw [hdim, hcap, if_neg (by simp), if_pos rfl]
    dsimp only
    rw [if_pos (by norm_num [defaultOilPercentage])]
  · intro hdim hcap
    unfold calculateVolumes
    rw [hdim, hcap]
    rfl

/-- Witness for claim C2 at three concrete rows, one per priority branch. -/
theorem claim_C2_witness :
    (hasFullDimensionalData exRowBoth = true ∧
     (calculateVolumes exRowBoth).calculationMethod = "dimensions") ∧
    (hasFullDimensionalData exRowCapacityOnly = false ∧
     hasOilCapacity exRowCapacityOnly = true ∧
     (calculateVolumes exRowCapacityOnly).calculationMethod = "oil_capacity") ∧
    (hasOilCapacity exRowNoData = false ∧
     (calculateVolumes exRowNoData).calculationMethod = "insufficient_data") := by
  refine ⟨⟨by decide, ?_⟩, ⟨by decide, by decide, ?_⟩, ⟨by decide, ?_⟩⟩
  · rw [(claim_C2 exRowBoth).1 (by decide)]
  · rw [(claim_C2 exRowCapacityOnly).2.1 (by decide) (by decide)]
  · rw [(claim_C2 exRowNoData).2.2 (by decide) (by decide)]

/-- Counterexample to claim C4 as stated: with an empty (or fully
brand-filtered) catalog, the splash processor returns its catalog error —
status `No Solution Found`, `success = false` — even for a criticality-C
asset, because the catalog check precedes the criticality gate. -/
theorem claim_C4_counterexample :
    exCfgC.criticality = some "C" ∧
    (processSingleRecord [] exRowBoth exCfgC).resultStatus = "No Solution Found" ∧
    (processSingleRecord [] exRowBoth exCfgC).success = false := by
  decide

/-- Claim C4 (amended): for effective criticality C the circulating
processor always returns `No Breather Required` with `success = true` and
the splash processor does so provided the catalog is non-empty (its
empty-catalog check runs first); in both cases the returned result is a
fixed record — independent of the catalog contents and of every other
asset field — so no capacity, operational, sump or space filtering is
performed. -/
theorem claim_C4 (cfg : Config) (hcrit : cfg.criticality = some "C") :
    (∀ (catalog : List Breather) (row : AssetRow), catalog ≠ [] →
      processSingleRecord catalog row cfg =
        { success := true, ruleTrace := [TraceStep.rule1 "C" false],
          thermalAnalysis := none, selectedBreather := [],
          resultStatus := "No Breather Required", installationNotes := "",
          errorMessage := "", rejectedCandidates := [], operationalFactors := none,
          lccBreather := none, costBenefitBreather := none }) ∧
    (∀ (dataset : List (Nat × AssetRow)) (catalog : List Breather) (row : AssetRow)
       (idx : Nat),
      circProcessSingleRecord dataset catalog row idx cfg =
        { success := true, ruleTrace := [TraceStep.rule1 "C" false],
          flowAnalysis := none, selectedBreather := [],
          resultStatus := "No Breather Required", installationNotes := "",
          errorMessage := "", gpmAnalysis := none, lccBreather := none,
          costBenefitBreather := none }) := by
  have hreq : applyRule1 cfg = false := by
    unfold applyRule1
    simp [hcrit]
  constructor
  · intro catalog row hcat
    have hempty : catalog.isEmpty = false := by
      rcases catalog with _ | ⟨b, bs⟩
      · exact absurd rfl hcat
      · rfl
    unfold processSingleRecord
    rw [hempty]
    dsimp only
    rw [hreq, hcrit]
    simp [initialSplashResult]
  · intro dataset catalog row idx
    unfold circProcessSingleRecord
    dsimp only
    rw [hreq, hcrit]
    simp [initialCircResult]

/-- Witness for claim C4 at a concrete criticality-C configuration. -/
theorem claim_C4_witness :
    exCfgC.criticality = some "C" ∧
    (processSingleRecord [exBreatherX] exRowBoth exCfgC).resultStatus =
      "No Breather Required" ∧
    (circProcessSingleRecord [] [] exRowBoth 0 exCfgC).resultStatus =
      "No Breather Required" := by
  refine ⟨by decide, ?_, ?_⟩
  · rw [(claim_C4 exCfgC (by decide)).1 [exBreatherX] exRowBoth (by decide)]
  · rw [(claim_C4 exCfgC (by decide)).2 [] [] exRowBoth 0]

theorem colNum_sumpSplash (b : Breather) :
    colNum b "Gearbox, pump, storage Sump Volume MAX gal" = b.sumpVolMaxSplash := rfl

theorem sortB_ne_nil {α : Type} (le : α → α → Bool) (l : List α) (h : l ≠ []) :
    sortB le l ≠ [] := by
  intro hs
  rcases l with _ | ⟨x, xs⟩
  · exact h rfl
  · have : x ∈ sortB le (x :: xs) := (mem_sortB le (x :: xs) x).mpr (List.mem_cons_self x xs)
    rw [hs] at this
    simp at this

theorem findColumn_sumpCol (ctx : Ctx) :
    findColumn catalogColumns (sumpColName ctx) = some (resolvedSumpCol ctx) := by
  unfold resolvedSumpCol
  unfold sumpColName
  split <;> decide

/-- Claim C5: the fallback-relaxation controller uses exactly the fixed
attempt order, never relaxes the mobile constraint, accepts the first
attempt with a non-empty replay from the capacity-gate survivors, and —
since the vibration-only relaxation is tried first — an input whose
vibration-only replay is non-empty is always resolved by that replay and
never by a later (oil-mist or ESI) one; moreover no relaxation happens at
all when the initial operational pass is non-empty. -/
theorem claim_C5 (initial : List Breather) (row : AssetRow) (cfg : Config)
    (volumes : Volumes)
    (hvib : (applyRule4 initial row cfg volumes ["vibration"]).1.isEmpty = false) :
    (∀ cs ∈ fallbackAttempts, cs.contains "mobile" = false) ∧
    runFallbackAttempts initial row cfg volumes =
      some ((applyRule4 initial row cfg volumes ["vibration"]).1, ["vibration"]) ∧
    ((applyRule4 initial row cfg volumes []).1.isEmpty = false →
      splashAfterFallback initial row cfg volumes =
        ((applyRule4 initial row cfg volumes []).1, none, [])) := by
  refine ⟨by decide, ?_, ?_⟩
  · unfold runFallbackAttempts fallbackAttempts
    rw [runFallbackAttemptsAux]
    rw [if_neg (by simp [hvib])]
  · intro h
    unfold splashAfterFallback
    rw [if_neg (by simp [h])]

/-- Witness for claim C5 at a concrete candidate set and benign asset. -/
theorem claim_C5_witness :
    (applyRule4 [exBreatherX] exRowBoth exCfgA emptyVolumes ["vibration"]).1.isEmpty = false ∧
    ((∀ cs ∈ fallbackAttempts, cs.contains "mobile" = false) ∧
     runFallbackAttempts [exBreatherX] exRowBoth exCfgA emptyVolumes =
       some ((applyRule4 [exBreatherX] exRowBoth exCfgA emptyVolumes ["vibration"]).1,
             ["vibration"]) ∧
     ((applyRule4 [exBreatherX] exRowBoth exCfgA emptyVolumes []).1.isEmpty = false →
       splashAfterFallback [exBreatherX] exRowBoth exCfgA emptyVolumes =
         ((applyRule4 [exBreatherX] exRowBoth exCfgA emptyVolumes []).1, none, []))) :=
  ⟨by decide, claim_C5 [exBreatherX] exRowBoth exCfgA emptyVolumes (by decide)⟩

/-- Counterexample to claim C7 as stated: on a splash context with sump
data, the cost-benefit selector picks by sump margin first (and adsorption
ascending), not by the default splash ranking: with two disposables it
returns Y while the default ranking logic returns X. -/
theorem claim_C7_counterexample :
    containsCI exBreatherX.btype "Disposable" = true ∧
    containsCI exBreatherY.btype "Disposable" = true ∧
    exCtxSplash.systemType = "splash" ∧
    selectCostBenefitBreather [exBreatherX, exBreatherY] exCtxSplash = some exBreatherY ∧
    rankAndSelectBestBreather [exBreatherX, exBreatherY] exCtxSplash = some exBreatherX ∧
    exBreatherY ≠ exBreatherX := by
  refine ⟨by decide, by decide, by decide, ?_, ?_, by decide⟩
  · unfold selectCostBenefitBreather
    rw [if_neg (by decide)]
    dsimp only
    rw [if_neg (by decide)]
    have hcol : findColumn catalogColumns (sumpColName exCtxSplash) =
        some "Gearbox, pump, storage Sump Volume MAX gal" := by decide
    rw [hcol]
    dsimp only
    rw [if_pos (by decide)]
    simp only [sortB, insertB]
    rw [if_neg (by
      norm_num [lexLe3, lexLe2, sumpMargin, cfmMargin, adsorptionVal, colNum_sumpSplash,
        exBreatherX, exBreatherY, exCtxSplash, resolvedSumpCol, Option.getD])]
    rfl
  · unfold rankAndSelectBestBreather
    rw [if_neg (by decide)]
    have hcol : findColumn catalogColumns (sumpColName exCtxSplash) =
        some "Gearbox, pump, storage Sump Volume MAX gal" := by decide
    rw [hcol]
    dsimp only
    rw [if_pos (by decide), if_neg (by decide)]
    simp only [sortB, insertB]
    rw [if_pos (by
      norm_num [lexLe3, lexLe2, sumpMargin, cfmMargin, adsorptionVal, colNum_sumpSplash,
        exBreatherX, exBreatherY, exCtxSplash, resolvedSumpCol, Option.getD])]
    rfl

/-- Claim C7 (amended): the cost-benefit selection restricts strictly to
disposable candidates and returns none when no disposable exists; the
surviving disposables are ranked by its own fixed order — sump margin
ascending, then CFM margin ascending, then adsorption ascending — when
sump data is usable (oil volume positive), else CFM margin then adsorption
both ascending, regardless of system type; the top-ranked disposable is
returned. -/
theorem claim_C7 (allCandidates : List Breather) (ctx : Ctx) :
    ((allCandidates.filter (fun b => containsCI b.btype "Disposable")).isEmpty = true →
      selectCostBenefitBreather allCandidates ctx = none) ∧
    ((allCandidates.filter (fun b => containsCI b.btype "Disposable")).isEmpty = false →
      ∃ b, selectCostBenefitBreather allCandidates ctx = some b ∧
        b ∈ allCandidates ∧ containsCI b.btype "Disposable" = true ∧
        (ctx.vOil > 0 →
          ∀ d ∈ allCandidates, containsCI d.btype "Disposable" = true →
            lexLe3 (cbSortKey3 ctx b) (cbSortKey3 ctx d) = true) ∧
        (¬(ctx.vOil > 0) →
          ∀ d ∈ allCandidates, containsCI d.btype "Disposable" = true →
            lexLe2 (cbSortKey2 ctx b) (cbSortKey2 ctx d) = true)) := by
  constructor
  · intro hd
    unfold selectCostBenefitBreather
    split
    · rfl
    · dsimp only
      rw [hd]
      rfl
  · intro hd
    have hall : allCandidates.isEmpty = false := by
      rcases allCandidates with _ | ⟨x, xs⟩
      · simp at hd
      · rfl
    have hdne : allCandidates.filter (fun b => containsCI b.btype "Disposable") ≠ [] := by
      intro he
      rw [he] at hd
      simp at hd
    unfold selectCostBenefitBreather
    rw [if_neg (by simp [hall])]
    dsimp only
    rw [if_neg (by simp [hd])]
    rw [findColumn_sumpCol ctx]
    dsimp only
    by_cases hv : ctx.vOil > 0
    · rw [if_pos hv]
      set le3 := fun a b : Breather =>
        lexLe3 (sumpMargin ctx (resolvedSumpCol ctx) a, cfmMargin ctx a, adsorptionVal a)
               (sumpMargin ctx (resolvedSumpCol ctx) b, cfmMargin ctx b, adsorptionVal b) with hle3
      have hsne : sortB le3 (allCandidates.filter (fun b => containsCI b.btype "Disposable")) ≠ [] :=
        sortB_ne_nil le3 _ hdne
      rcases hhead : sortB le3 (allCandidates.filter (fun b => containsCI b.btype "Disposable"))
        with _ | ⟨b0, rest⟩
      · exact absurd hhead hsne
      · refine ⟨b0, ?_, ?_, ?_, ?_, ?_⟩
        · rfl
        · have : b0 ∈ allCandidates.filter (fun b => containsCI b.btype "Disposable") := by
            have : b0 ∈ sortB le3 (allCandidates.filter (fun b => containsCI b.btype "Disposable")) := by
              rw [hhead]; exact List.mem_cons_self _ _
            exact (mem_sortB le3 _ b0).mp this
          exact (List.mem_filter.mp this).1
        · have : b0 ∈ allCandidates.filter (fun b => containsCI b.btype "Disposable") := by
            have : b0 ∈ sortB le3 (allCandidates.filter (fun b => containsCI b.btype "Disposable")) := by
              rw [hhead]; exact List.mem_cons_self _ _
            exact (mem_sortB le3 _ b0).mp this
          exact (List.mem_filter.mp this).2
        · intro _ d hdmem hddisp
          have hmem : d ∈ allCandidates.filter (fun b => containsCI b.btype "Disposable") :=
            List.mem_filter.mpr ⟨hdmem, hddisp⟩
          have := sortB_head_min le3
            (fun a b => lexLe3_total _ _)
            (fun a b c h1 h2 => lexLe3_trans _ _ _ h1 h2)
            _ b0 rest hhead d hmem
          simpa [hle3, cbSortKey3] using this
        · intro hv2
          exact absurd hv hv2
    · rw [if_neg hv]
      set le2 := fun a b : Breather =>
        lexLe2 (cfmMargin ctx a, adsorptionVal a) (cfmMargin ctx b, adsorptionVal b) with hle2
      have hsne : sortB le2 (allCandidates.filter (fun b => containsCI b.btype "Disposable")) ≠ [] :=
        sortB_ne_nil le2 _ hdne
      rcases hhead : sortB le2 (allCandidates.filter (fun b => containsCI b.btype "Disposable"))
        with _ | ⟨b0, rest⟩
      · exact absurd hhead hsne
      · refine ⟨b0, ?_, ?_, ?_, ?_, ?_⟩
        · rfl
        · have : b0 ∈ allCandidates.filter (fun b => containsCI b.btype "Disposable") := by
            have : b0 ∈ sortB le2 (allCandidates.filter (fun b => containsCI b.btype "Disposable")) := by
              rw [hhead]; exact List.mem_cons_self _ _
            exact (mem_sortB le2 _ b0).mp this
          exact (List.mem_filter.mp this).1
        · have : b0 ∈ allCandidates.filter (fun b => containsCI b.btype "Disposable") := by
            have : b0 ∈ sortB le2 (allCandidates.filter (fun b => containsCI b.btype "Disposable")) := by
              rw [hhead]; exact List.mem_cons_self _ _
            exact (mem_sortB le2 _ b0).mp this
          exact (List.mem_filter.mp this).2
        · intro hv2
          exact absurd hv2 hv
        · intro _ d hdmem hddisp
          have hmem : d ∈ allCandidates.filter (fun b => containsCI b.btype "Disposable") :=
            List.mem_filter.mpr ⟨hdmem, hddisp⟩
          have := sortB_head_min le2
            (fun a b => lexLe2_total _ _)
            (fun a b c h1 h2 => lexLe2_trans _ _ _ h1 h2)
            _ b0 rest hhead d hmem
          simpa [hle2, cbSortKey2] using this

/-- Witness for claim C7 at a concrete two-disposable candidate set. -/
theorem claim_C7_witness :
    (([exBreatherX, exBreatherY].filter
        (fun b => containsCI b.btype "Disposable")).isEmpty = false) ∧
    (∃ b, selectCostBenefitBreather [exBreatherX, exBreatherY] exCtxSplash = some b ∧
       b ∈ [exBreatherX, exBreatherY] ∧ containsCI b.btype "Disposable" = true ∧
       (exCtxSplash.vOil > 0 →
         ∀ d ∈ [exBreatherX, exBreatherY], containsCI d.btype "Disposable" = true →
           lexLe3 (cbSortKey3 exCtxSplash b) (cbSortKey3 exCtxSplash d) = true) ∧
       (¬(exCtxSplash.vOil > 0) →
         ∀ d ∈ [exBreatherX, exBreatherY], containsCI d.btype "Disposable" = true →
           lexLe2 (cbSortKey2 exCtxSplash b) (cbSortKey2 exCtxSplash d) = true)) :=
  ⟨by decide, (claim_C7 [exBreatherX, exBreatherY] exCtxSplash).2 (by decide)⟩

/-- Claim C9: temperature extraction returns (min, max) with two or more
parsed values and (t, t) with exactly one; the differential is max − min
over all available operating and ambient bounds, with a 40°F default
whenever fewer than two values exist or the differential is below 10°F;
and on the documented example the operating bounds are (125, 150) and the
differential is 90 with no fallback. -/
theorem claim_C9 :
    (∀ s : String, 2 ≤ (fahrenheitMatches s).length →
      ∃ lo hi, extractTemperatures s = (some lo, some hi) ∧
        lo ∈ fahrenheitMatches s ∧ hi ∈ fahrenheitMatches s ∧
        ∀ t ∈ fahrenheitMatches s, lo ≤ t ∧ t ≤ hi) ∧
    (∀ (s : String) (t : ℚ), fahrenheitMatches s = [t] →
      extractTemperatures s = (some t, some t)) ∧
    (∀ op amb : Option ℚ × Option ℚ,
      (([op.1, op.2, amb.1, amb.2].filterMap id).length < 2 →
        calculateTemperatureDifferential op amb = 40) ∧
      (2 ≤ ([op.1, op.2, amb.1, amb.2].filterMap id).length →
        ∃ lo hi, lo ∈ [op.1, op.2, amb.1, amb.2].filterMap id ∧
          hi ∈ [op.1, op.2, amb.1, amb.2].filterMap id ∧
          (∀ t ∈ [op.1, op.2, amb.1, amb.2].filterMap id, lo ≤ t ∧ t ≤ hi) ∧
          calculateTemperatureDifferential op amb =
            if hi - lo ≥ 10 then hi - lo else 40)) ∧
    (extractTemperatures "125°F (51.7°C) - 150°F (65.6°C)" = (some 125, some 150) ∧
     calculateTemperatureDifferential (some 125, some 150) (some 60, some 80) = 90) := by
  refine ⟨?_, ?_, ?_, by decide, ?_⟩
  · intro s h2
    by_cases hs : s = ""
    · subst hs
      exact absurd h2 (by decide)
    · have hne : fahrenheitMatches s ≠ [] := by
        intro he
        rw [he] at h2
        norm_num at h2
      obtain ⟨lo, hlo⟩ := listMinQ_isSome _ hne
      obtain ⟨hi, hhi⟩ := listMaxQ_isSome _ hne
      refine ⟨lo, hi, ?_, (listMinQ_spec _ _ hlo).1, (listMaxQ_spec _ _ hhi).1, ?_⟩
      · unfold extractTemperatures
        rw [if_neg hs]
        dsimp only
        rw [if_pos h2, hlo, hhi]
      · intro t ht
        exact ⟨(listMinQ_spec _ _ hlo).2 t ht, (listMaxQ_spec _ _ hhi).2 t ht⟩
  · intro s t h
    have hs : s ≠ "" := by
      intro he
      rw [he] at h
      rw [show fahrenheitMatches "" = ([] : List ℚ) from rfl] at h
      exact List.noConfusion h
    unfold extractTemperatures
    rw [if_neg hs]
    dsimp only
    rw [h]
    rw [if_neg (by norm_num)]
  · intro op amb
    constructor
    · intro hlen
      unfold calculateTemperatureDifferential
      dsimp only
      rw [if_pos hlen]
    · intro hlen
      have hne : [op.1, op.2, amb.1, amb.2].filterMap id ≠ [] := by
        intro he
        rw [he] at hlen
        norm_num at hlen
      obtain ⟨lo, hlo⟩ := listMinQ_isSome _ hne
      obtain ⟨hi, hhi⟩ := listMaxQ_isSome _ hne
      refine ⟨lo, hi, (listMinQ_spec _ _ hlo).1, (listMaxQ_spec _ _ hhi).1, ?_, ?_⟩
      · intro t ht
        exact ⟨(listMinQ_spec _ _ hlo).2 t ht, (listMaxQ_spec _ _ hhi).2 t ht⟩
      · unfold calculateTemperatureDifferential
        dsimp only
        rw [if_neg (by omega), hlo, hhi]
        simp only [Option.getD_some]
  · norm_num [calculateTemperatureDifferential, listMinQ, listMaxQ, List.filterMap]

/-- Witness for claim C9 at concrete strings and bounds. -/
theorem claim_C9_witness :
    (∃ lo hi, extractTemperatures "125°F (51.7°C) - 150°F (65.6°C)" = (some lo, some hi) ∧
       lo ∈ fahrenheitMatches "125°F (51.7°C) - 150°F (65.6°C)" ∧
       hi ∈ fahrenheitMatches "125°F (51.7°C) - 150°F (65.6°C)" ∧
       ∀ t ∈ fahrenheitMatches "125°F (51.7°C) - 150°F (65.6°C)", lo ≤ t ∧ t ≤ hi) ∧
    extractTemperatures "70°F" = (some 70, some 70) ∧
    (∃ lo hi,
       lo ∈ [some (125:ℚ), some 150, some 60, some 80].filterMap id ∧
       hi ∈ [some (125:ℚ), some 150, some 60, some 80].filterMap id ∧
       (∀ t ∈ [some (125:ℚ), some 150, some 60, some 80].filterMap id, lo ≤ t ∧ t ≤ hi) ∧
       calculateTemperatureDifferential (some 125, some 150) (some 60, some 80) =
         if hi - lo ≥ 10 then hi - lo else 40) :=
  ⟨claim_C9.1 "125°F (51.7°C) - 150°F (65.6°C)" (by decide),
   claim_C9.2.1 "70°F" 70 (by decide),
   (claim_C9.2.2.1 (some 125, some 150) (some 60, some 80)).2 (by decide)⟩

theorem colBool_mobile (b : Breather) : colBool b "Mobile applications" = b.mobileApps := rfl

theorem findColumn_mobile :
    findColumn catalogColumns "mobile applications" = some "Mobile applications" := by decide

theorem applyMobileFilter_required (bs : List Breather) :
    (applyMobileFilter bs true).breathers = bs.filter (fun b => b.mobileApps) := by
  unfold applyMobileFilter
  rw [findColumn_mobile]
  dsimp only
  rw [if_neg (by simp)]
  simp only [colBool_mobile]

theorem applyRule4_mobileOnly (bs : List Breather) (row : AssetRow) (cfg : Config)
    (volumes : Volumes) (exclude : List String)
    (hmob : (extractOperationalFactors row cfg).mobileApplication = true)
    (hex : exclude.contains "mobile" = false) :
    ∀ b ∈ (applyRule4 bs row cfg volumes exclude).1, b.mobileApps = true := by
  intro b hb
  unfold applyRule4 at hb
  dsimp only at hb
  rw [hmob, hex] at hb
  rw [if_pos (show true = true ∧ ¬(false = true) by simp)] at hb
  dsimp only at hb
  rw [applyMobileFilter_required] at hb
  have hchain : ∀ p ∈ (if volumes.vSump < 15 then
      ((rule4FilterMap (extractOperationalFactors row cfg)).filter (fun p => p.1 ≠ "oil_mist"),
       [TraceStep.oilMistSkippedSmallSump volumes.vSump])
    else (rule4FilterMap (extractOperationalFactors row cfg), ([] : List TraceStep))).1,
      ∀ (bs' : List Breather) (b' : Breather), b' ∈ (p.2 bs').breathers → b' ∈ bs' := by
    split
    · intro p hp
      exact rule4FilterMap_subset _ p (List.mem_filter.mp hp).1
    · intro p hp
      exact rule4FilterMap_subset _ p hp
  have hmem := runFilters_subset exclude _ hchain _ b hb
  exact (List.mem_filter.mp hmem).2

theorem applyRule4_noMobileCatalog (bs : List Breather) (row : AssetRow) (cfg : Config)
    (volumes : Volumes) (exclude : List String)
    (hmob : (extractOperationalFactors row cfg).mobileApplication = true)
    (hex : exclude.contains "mobile" = false)
    (hcat : ∀ b ∈ bs, b.mobileApps = false) :
    (applyRule4 bs row cfg volumes exclude).1 = [] := by
  rcases h : (applyRule4 bs row cfg volumes exclude).1 with _ | ⟨b, rest⟩
  · rfl
  · have hbmem : b ∈ (applyRule4 bs row cfg volumes exclude).1 := by
      rw [h]; exact List.mem_cons_self _ _
    have h1 := applyRule4_mobileOnly bs row cfg volumes exclude hmob hex b hbmem
    have h2 := hcat b (applyRule4_subset bs row cfg volumes exclude b hbmem)
    rw [h1] at h2
    exact Bool.noConfusion h2

theorem runFallbackAttemptsAux_none (initial : List Breather) (row : AssetRow)
    (cfg : Config) (volumes : Volumes) :
    ∀ attempts : List (List String),
      (∀ cs ∈ attempts, (applyRule4 initial row cfg volumes cs).1 = []) →
      runFallbackAttemptsAux initial row cfg volumes attempts = none := by
  intro attempts
  induction attempts with
  | nil => intro _; rfl
  | cons c rest ih =>
      intro h
      rw [runFallbackAttemptsAux]
      rw [h c (List.mem_cons_self c rest)]
      rw [if_pos (show ([] : List Breather).isEmpty = true from rfl)]
      exact ih (fun cs hcs => h cs (List.mem_cons_of_mem c hcs))

/-- Claim C6: when mobile use is required, the mobile filter is strict —
every rule-4 survivor is mobile-rated, for the initial pass and for every
relaxation replay (whose exclusion sets never contain mobile) — and on a
catalog with zero mobile-rated candidates the splash selection phase ends
with no selection, status No Solution Found and no success, never a
silently returned non-mobile candidate. -/
theorem claim_C6 (breatherCatalog : List Breather) (row : AssetRow) (cfg : Config)
    (volumes : Volumes) (thermal : ThermalResult) (tr0 : List TraceStep)
    (hmob : (extractOperationalFactors row cfg).mobileApplication = true) :
    (∀ (bs : List Breather) (exclude : List String), exclude.contains "mobile" = false →
       ∀ b ∈ (applyRule4 bs row cfg volumes exclude).1, b.mobileApps = true) ∧
    (∀ cs ∈ fallbackAttempts, cs.contains "mobile" = false) ∧
    ((∀ b ∈ breatherCatalog, b.mobileApps = false) →
       (splashSelectionPhase breatherCatalog row cfg thermal tr0).selectedBreather = [] ∧
       (splashSelectionPhase breatherCatalog row cfg thermal tr0).resultStatus =
         "No Solution Found" ∧
       (splashSelectionPhase breatherCatalog row cfg thermal tr0).success = false ∧
       (splashSelectionPhase breatherCatalog row cfg thermal tr0).lccBreather = none ∧
       (splashSelectionPhase breatherCatalog row cfg thermal tr0).costBenefitBreather = none) := by
  refine ⟨?_, by decide, ?_⟩
  · intro bs exclude hex
    exact applyRule4_mobileOnly bs row cfg volumes exclude hmob hex
  · intro hall
    have hnm : ∀ cs ∈ fallbackAttempts, cs.contains "mobile" = false := by decide
    have h4 : ∀ ex : List String, ex.contains "mobile" = false →
        (applyRule4 (applyRule3 breatherCatalog thermal.cfmRequired) row cfg
          (thermal.volumes.getD emptyVolumes) ex).1 = [] := by
      intro ex hex
      refine applyRule4_noMobileCatalog _ row cfg _ ex hmob hex ?_
      intro b hb
      exact hall b (applyRule3_mem breatherCatalog thermal.cfmRequired b hb).1
    have hrfa : runFallbackAttempts (applyRule3 breatherCatalog thermal.cfmRequired) row cfg
        (thermal.volumes.getD emptyVolumes) = none :=
      runFallbackAttemptsAux_none _ row cfg _ fallbackAttempts
        (fun cs hcs => h4 cs (hnm cs hcs))
    have hfb : splashAfterFallback (applyRule3 breatherCatalog thermal.cfmRequired) row cfg
        (thermal.volumes.getD emptyVolumes) = ([], none, [TraceStep.fallbackStart]) := by
      unfold splashAfterFallback
      rw [h4 [] (by decide)]
      rw [if_pos (show ([] : List Breather).isEmpty = true from rfl)]
      rw [hrfa]
    unfold splashSelectionPhase
    dsimp only
    by_cases hinit : (applyRule3 breatherCatalog thermal.cfmRequired).isEmpty = true
    · rw [if_pos hinit]
      exact ⟨rfl, rfl, rfl, rfl, rfl⟩
    · rw [if_neg hinit]
      rw [hfb]
      dsimp only
      rw [if_pos (show ([] : List Breather).isEmpty = true from rfl)]
      exact ⟨rfl, rfl, rfl, rfl, rfl⟩

/-- Witness for claim C6: mobile required, single non-mobile candidate. -/
theorem claim_C6_witness :
    (extractOperationalFactors exRowBoth exCfgMobile).mobileApplication = true ∧
    ((∀ (bs : List Breather) (exclude : List String), exclude.contains "mobile" = false →
        ∀ b ∈ (applyRule4 bs exRowBoth exCfgMobile emptyVolumes exclude).1,
          b.mobileApps = true) ∧
     (∀ cs ∈ fallbackAttempts, cs.contains "mobile" = false) ∧
     ((∀ b ∈ [exBreatherX], b.mobileApps = false) →
        (splashSelectionPhase [exBreatherX] exRowBoth exCfgMobile exThermal []).selectedBreather
          = [] ∧
        (splashSelectionPhase [exBreatherX] exRowBoth exCfgMobile exThermal []).resultStatus =
          "No Solution Found" ∧
        (splashSelectionPhase [exBreatherX] exRowBoth exCfgMobile exThermal []).success = false ∧
        (splashSelectionPhase [exBreatherX] exRowBoth exCfgMobile exThermal []).lccBreather
          = none ∧
        (splashSelectionPhase [exBreatherX] exRowBoth exCfgMobile
          exThermal []).costBenefitBreather = none)) :=
  ⟨by decide, claim_C6 [exBreatherX] exRowBoth exCfgMobile emptyVolumes exThermal [] (by decide)⟩

/-- Claim C3: capacity monotonicity — every breather the engine returns
(default selected, LCC, cost-benefit), in the splash and the circulating
selection pipelines, has a Max Air Flow rating at least the required CFM,
because the rule-3 capacity gate keeps only such candidates and every
later stage selects from subsets of its survivors. -/
theorem claim_C3 (catalog : List Breather) (row : AssetRow) (cfg : Config)
    (thermal : ThermalResult) (tr0 : List TraceStep) (flow : FlowResult)
    (volumes : Volumes) (r0 : CircResult)
    (h0sel : r0.selectedBreather = []) (h0lcc : r0.lccBreather = none)
    (h0cb : r0.costBenefitBreather = none) :
    (∀ b : Breather,
       (b ∈ (splashSelectionPhase catalog row cfg thermal tr0).selectedBreather ∨
        (splashSelectionPhase catalog row cfg thermal tr0).lccBreather = some b ∨
        (splashSelectionPhase catalog row cfg thermal tr0).costBenefitBreather = some b) →
       ∃ v, b.maxAirFlow = some v ∧ v ≥ thermal.cfmRequired) ∧
    (∀ b : Breather,
       (b ∈ (circSelectionPhase catalog row cfg flow volumes r0).selectedBreather ∨
        (circSelectionPhase catalog row cfg flow volumes r0).lccBreather = some b ∨
        (circSelectionPhase catalog row cfg flow volumes r0).costBenefitBreather = some b) →
       ∃ v, b.maxAirFlow = some v ∧ v ≥ flow.cfmRequired) := by
  constructor
  · intro b hb
    exact (applyRule3_mem catalog thermal.cfmRequired b
      (splashSelectionPhase_mem catalog row cfg thermal tr0 b hb)).2
  · intro b hb
    exact circSelectionPhase_mem catalog row cfg flow volumes r0 h0sel h0lcc h0cb b hb

/-- Witness for claim C3 on singleton catalogs through both phases. -/
theorem claim_C3_witness :
    initialCircResult.selectedBreather = [] ∧
    initialCircResult.lccBreather = none ∧
    initialCircResult.costBenefitBreather = none ∧
    exBreatherX ∈ (splashSelectionPhase [exBreatherX] exRowBoth exCfgA
      exThermal []).selectedBreather ∧
    exBreatherX ∈ (circSelectionPhase [exBreatherX] exRowBoth exCfgA exFlow
      emptyVolumes initialCircResult).selectedBreather ∧
    (∃ v, exBreatherX.maxAirFlow = some v ∧ v ≥ exThermal.cfmRequired) ∧
    (∃ v, exBreatherX.maxAirFlow = some v ∧ v ≥ exFlow.cfmRequired) :=
  ⟨rfl, rfl, rfl, by decide, by decide,
   (claim_C3 [exBreatherX] exRowBoth exCfgA exThermal [] exFlow emptyVolumes
      initialCircResult rfl rfl rfl).1 exBreatherX (Or.inl (by decide)),
   (claim_C3 [exBreatherX] exRowBoth exCfgA exThermal [] exFlow emptyVolumes
      initialCircResult rfl rfl rfl).2 exBreatherX (Or.inl (by decide))⟩

theorem step3_pos (p : ℚ × FlowMethod) :
    (0 : ℚ) < (if p.1 ≤ 0 then ((15 : ℚ), FlowMethod.safetyMinimum) else p).1 := by
  split
  · norm_num
  · rename_i h
    exact not_le.mp h

/-- Counterexample to claim C8 as stated: the core circulating processor
has no per-category flow defaults — a turbine-bearing row with no manual
override, no pump siblings and no declared capacity resolves to the
15-GPM safety minimum, not the claimed turbine default of 60 GPM; and the
CFM formula hard-codes the 1.4 factor, ignoring the configured safety
factor. -/
theorem claim_C8_counterexample :
    (calculateGpmAndCfm [(0, exRowTurbine)] exRowTurbine 0 exCfgA).totalFlow = 15 ∧
    (calculateGpmAndCfm [(0, exRowTurbine)] exRowTurbine 0 exCfgA).calculationMethod =
      FlowMethod.safetyMinimum ∧
    claimedCategoryDefaultGpm exRowTurbine.maintPoint = 60 ∧
    (15 : ℚ) ≠ 60 ∧
    exCfgSafety2.safetyFactor = some 2 ∧
    (calculateGpmAndCfm [(0, exRowTurbine)] exRowTurbine 0 exCfgSafety2).cfmRequired =
      15 / (748 / 100) * (14 / 10) :=
  ⟨by decide, by decide, by decide, by decide, rfl, rfl⟩

/-- Claim C8 (amended): the required flow resolves by first success in the
order manual override, pump-sibling cross reference (when the summed
sibling flow is positive), capacity estimate (capacity ÷ 3, converted),
and then directly the 15-GPM safety minimum — there are no per-category
component-template defaults in the core circulating processor; the
resolved total flow is always positive; and CFM = flow / 7.48 × 1.4 with
the 1.4 factor fixed. -/
theorem claim_C8 (fullDataset : List (Nat × AssetRow)) (row : AssetRow) (idx : Nat)
    (cfg : Config) :
    (cfg.enableManualGpm.getD false = true → cfg.manualGpmOverride.getD 0 > 0 →
      calculateGpmAndCfm fullDataset row idx cfg =
        { cfmRequired := cfg.manualGpmOverride.getD 0 / (748 / 100) * (14 / 10),
          totalFlow := cfg.manualGpmOverride.getD 0,
          calculationMethod := FlowMethod.manualOverride (cfg.manualGpmOverride.getD 0) }) ∧
    (¬(cfg.enableManualGpm.getD false = true ∧ cfg.manualGpmOverride.getD 0 > 0) →
      stripStr row.machine ≠ "" →
      findPumpSiblings fullDataset (stripStr row.machine) idx ≠ [] →
      0 < ((findPumpSiblings fullDataset (stripStr row.machine) idx).map
            (fun s => convertToGpm (some s.1) s.2)).sum →
      calculateGpmAndCfm fullDataset row idx cfg =
        { cfmRequired := ((findPumpSiblings fullDataset (stripStr row.machine) idx).map
              (fun s => convertToGpm (some s.1) s.2)).sum / (748 / 100) * (14 / 10),
          totalFlow := ((findPumpSiblings fullDataset (stripStr row.machine) idx).map
              (fun s => convertToGpm (some s.1) s.2)).sum,
          calculationMethod := FlowMethod.crossReference
            (findPumpSiblings fullDataset (stripStr row.machine) idx).length }) ∧
    (¬(cfg.enableManualGpm.getD false = true ∧ cfg.manualGpmOverride.getD 0 > 0) →
      (stripStr row.machine = "" ∨
       findPumpSiblings fullDataset (stripStr row.machine) idx = []) →
      ∀ cap : ℚ, row.dOilCapacity = some cap → cap > 0 →
      calculateGpmAndCfm fullDataset row idx cfg =
        { cfmRequired := cap / 3 * litersToGallons / (748 / 100) * (14 / 10),
          totalFlow := cap / 3 * litersToGallons,
          calculationMethod := FlowMethod.estimatedFromOilCapacity cap }) ∧
    (¬(cfg.enableManualGpm.getD false = true ∧ cfg.manualGpmOverride.getD 0 > 0) →
      (stripStr row.machine = "" ∨
       findPumpSiblings fullDataset (stripStr row.machine) idx = []) →
      (row.dOilCapacity = none ∨ ∃ cap, row.dOilCapacity = some cap ∧ ¬(cap > 0)) →
      calculateGpmAndCfm fullDataset row idx cfg =
        { cfmRequired := 15 / (748 / 100) * (14 / 10), totalFlow := 15,
          calculationMethod := FlowMethod.safetyMinimum }) ∧
    (calculateGpmAndCfm fullDataset row idx cfg).totalFlow > 0 := by
  refine ⟨?_, ?_, ?_, ?_, ?_⟩
  · intro h1 h2
    unfold calculateGpmAndCfm
    rw [if_pos (show cfg.enableManualGpm.getD false = true ∧
      cfg.manualGpmOverride.getD 0 > 0 from ⟨h1, h2⟩)]
  · intro hnm hmach hsib hpos
    unfold calculateGpmAndCfm
    rw [if_neg hnm]
    dsimp only
    rw [if_pos hmach]
    rw [if_pos (show ¬((findPumpSiblings fullDataset (stripStr row.machine) idx).isEmpty
      = true) from by simpa [List.isEmpty_iff] using hsib)]
    dsimp only
    rw [if_neg hpos.ne']
    dsimp only
    rw [if_neg (not_le.mpr hpos)]
  · intro hnm hs1 cap hcap hcappos
    have hpos2 : (0 : ℚ) < cap / 3 * litersToGallons :=
      mul_pos (div_pos hcappos (by norm_num)) (by norm_num [litersToGallons])
    unfold calculateGpmAndCfm
    rw [if_neg hnm]
    dsimp only
    rcases hs1 with h | h
    · rw [if_neg (show ¬(stripStr row.machine ≠ "") from by simp [h])]
      dsimp only
      rw [if_pos (show (0 : ℚ) = 0 from rfl), hcap]
      dsimp only
      rw [if_pos hcappos]
      dsimp only
      rw [if_neg (not_le.mpr hpos2)]
    · by_cases hm : stripStr row.machine = ""
      · rw [if_neg (show ¬(stripStr row.machine ≠ "") from by simp [hm])]
        dsimp only
        rw [if_pos (show (0 : ℚ) = 0 from rfl), hcap]
        dsimp only
        rw [if_pos hcappos]
        dsimp only
        rw [if_neg (not_le.mpr hpos2)]
      · rw [if_pos hm, h]
        rw [if_neg (show ¬¬(([] : List (ℚ × String)).isEmpty = true) from by simp)]
        dsimp only
        rw [if_pos (show (0 : ℚ) = 0 from rfl), hcap]
        dsimp only
        rw [if_pos hcappos]
        dsimp only
        rw [if_neg (not_le.mpr hpos2)]
  · intro hnm hs1 hcapbad
    unfold calculateGpmAndCfm
    rw [if_neg hnm]
    dsimp only
    rcases hs1 with h | h
    · rw [if_neg (show ¬(stripStr row.machine ≠ "") from by simp [h])]
      dsimp only
      rcases hcapbad with hc | ⟨cap, hc, hneg⟩
      · rw [if_pos (show (0 : ℚ) = 0 from rfl), hc]
        dsimp only
        rw [if_pos (le_refl (0 : ℚ))]
      · rw [if_pos (show (0 : ℚ) = 0 from rfl), hc]
        dsimp only
        rw [if_neg hneg]
        dsimp only
        rw [if_pos (le_refl (0 : ℚ))]
    · by_cases hm : stripStr row.machine = ""
      · rw [if_neg (show ¬(stripStr row.machine ≠ "") from by simp [hm])]
        dsimp only
        rcases hcapbad with hc | ⟨cap, hc, hneg⟩
        · rw [if_pos (show (0 : ℚ) = 0 from rfl), hc]
          dsimp only
          rw [if_pos (le_refl (0 : ℚ))]
        · rw [if_pos (show (0 : ℚ) = 0 from rfl), hc]
          dsimp only
          rw [if_neg hneg]
          dsimp only
          rw [if_pos (le_refl (0 : ℚ))]
      · rw [if_pos hm, h]
        rw [if_neg (show ¬¬(([] : List (ℚ × String)).isEmpty = true) from by simp)]
        dsimp only
        rcases hcapbad with hc | ⟨cap, hc, hneg⟩
        · rw [if_pos (show (0 : ℚ) = 0 from rfl), hc]
          dsimp only
          rw [if_pos (le_refl (0 : ℚ))]
        · rw [if_pos (show (0 : ℚ) = 0 from rfl), hc]
          dsimp only
          rw [if_neg hneg]
          dsimp only
          rw [if_pos (le_refl (0 : ℚ))]
  · unfold calculateGpmAndCfm
    split
    · rename_i h
      dsimp only
      exact h.2
    · dsimp only
      exact step3_pos _

/-- Witness for claim C8 on the four resolution paths. -/
theorem claim_C8_witness :
    exCfgManualGpm.enableManualGpm.getD false = true ∧
    exCfgManualGpm.manualGpmOverride.getD 0 > 0 ∧
    calculateGpmAndCfm [] exRowBoth 0 exCfgManualGpm =
      { cfmRequired := exCfgManualGpm.manualGpmOverride.getD 0 / (748 / 100) * (14 / 10),
        totalFlow := exCfgManualGpm.manualGpmOverride.getD 0,
        calculationMethod :=
          FlowMethod.manualOverride (exCfgManualGpm.manualGpmOverride.getD 0) } ∧
    calculateGpmAndCfm [(0, exRowTurbine), (1, exRowPump)] exRowTurbine 0 exCfgA =
      { cfmRequired := ((findPumpSiblings [(0, exRowTurbine), (1, exRowPump)]
            (stripStr exRowTurbine.machine) 0).map
            (fun s => convertToGpm (some s.1) s.2)).sum / (748 / 100) * (14 / 10),
        totalFlow := ((findPumpSiblings [(0, exRowTurbine), (1, exRowPump)]
            (stripStr exRowTurbine.machine) 0).map
            (fun s => convertToGpm (some s.1) s.2)).sum,
        calculationMethod := FlowMethod.crossReference
          (findPumpSiblings [(0, exRowTurbine), (1, exRowPump)]
            (stripStr exRowTurbine.machine) 0).length } ∧
    calculateGpmAndCfm [] exRowCapacityOnly 0 exCfgA =
      { cfmRequired := 10 / 3 * litersToGallons / (748 / 100) * (14 / 10),
        totalFlow := 10 / 3 * litersToGallons,
        calculationMethod := FlowMethod.estimatedFromOilCapacity 10 } ∧
    calculateGpmAndCfm [] exRowTurbine 0 exCfgA =
      { cfmRequired := 15 / (748 / 100) * (14 / 10), totalFlow := 15,
        calculationMethod := FlowMethod.safetyMinimum } :=
  ⟨by decide, by decide,
   (claim_C8 [] exRowBoth 0 exCfgManualGpm).1 (by decide) (by decide),
   (claim_C8 [(0, exRowTurbine), (1, exRowPump)] exRowTurbine 0 exCfgA).2.1 (by decide)
     (by decide) (by decide)
     (by
       rw [show (findPumpSiblings [(0, exRowTurbine), (1, exRowPump)]
         (stripStr exRowTurbine.machine) 0).map (fun s => convertToGpm (some s.1) s.2) =
           [(10 : ℚ)] from by decide]
       simp only [List.sum_cons, List.sum_nil]
       norm_num),
   (claim_C8 [] exRowCapacityOnly 0 exCfgA).2.2.1 (by decide) (Or.inl (by decide)) 10 rfl
     (by decide),
   (claim_C8 [] exRowTurbine 0 exCfgA).2.2.2.1 (by decide) (Or.inr (by decide)) (Or.inl rfl)⟩
